import Mathlib

/-!
Verification of the NetBox MCP server's query-mediation layer.

The Python sources are shallowly embedded as executable Lean definitions:
JSON values become the inductive `JVal`, Python dicts become association
lists with first-occurrence keys (`slookup` / `dictSet` mirror dict lookup
and dict assignment), raised exceptions become `Except` errors carrying the
exception class and its message string, and network I/O becomes an explicit
environment function `String → params → HttpResp` together with a trace of
issued requests.
-/

set_option maxHeartbeats 1000000

/-- A JSON value as manipulated by the Python code.  Python dicts are
modelled as association lists in insertion order with unique keys. -/
inductive JVal where
  | null : JVal
  | bool : Bool → JVal
  | num : Int → JVal
  | str : String → JVal
  | arr : List JVal → JVal
  | obj : List (String × JVal) → JVal

/-- Lookup in a string-keyed association list (Python `d[k]` / `d.get(k)`). -/
def slookup {α : Type} : List (String × α) → String → Option α
  | [], _ => none
  | (k, v) :: rest, key => if k = key then some v else slookup rest key

/-- Lookup in a JSON object (`item.get(key)` returning `None` as `none`). -/
def jget (d : List (String × JVal)) (k : String) : Option JVal :=
  slookup d k

/-- Python dict assignment `d[k] = v`: replaces the value in place if the key
exists (keeping its position), otherwise appends the new key at the end. -/
def dictSet : List (String × JVal) → String → JVal → List (String × JVal)
  | [], k, v => [(k, v)]
  | (k1, v1) :: rest, k, v =>
      if k1 = k then (k1, v) :: rest else (k1, v1) :: dictSet rest k v

/-- Python truthiness of a JSON value (`if x:`): `None`, `False`, `0`, `""`,
`[]` and `{}` are falsy. -/
def jTruthy : JVal → Bool
  | .null => false
  | .bool b => b
  | .num n => n != 0
  | .str s => s ≠ ""
  | .arr xs => !xs.isEmpty
  | .obj fs => !fs.isEmpty

/-- Python `str()` of a scalar value, used when the code interpolates a
filter value into an f-string error message.  Lists render their elements
with `str` as well (the source only ever interpolates scalars here, since
`FilterSpec` values are scalars or lists of scalars). -/
def pyStr : JVal → String
  | .null => "None"
  | .bool true => "True"
  | .bool false => "False"
  | .num n => toString n
  | .str s => s
  | .arr xs => "[" ++ String.intercalate ", " (xs.map pyStrShallow) ++ "]"
  | .obj _ => "\x7b...\x7d"
where
  /-- One level of rendering for list elements (no further nesting occurs
  in filter values). -/
  pyStrShallow : JVal → String
    | .null => "None"
    | .bool true => "True"
    | .bool false => "False"
    | .num n => toString n
    | .str s => s
    | _ => ""

/-- Does the character list `needle` start the character list `hay`? -/
def charsStart : List Char → List Char → Bool
  | [], _ => true
  | _ :: _, [] => false
  | a :: as, b :: bs => a = b && charsStart as bs

/-- Does `needle` occur contiguously inside `hay`? -/
def charsHasSub (needle : List Char) : List Char → Bool
  | [] => needle.isEmpty
  | c :: rest => charsStart needle (c :: rest) || charsHasSub needle rest

/-- Python substring test `needle in hay` for strings. -/
def strHasSub (hay needle : String) : Bool :=
  charsHasSub needle.toList hay.toList

/-- Ascending lexicographic sort, modelling Python `sorted` over strings. -/
def sortAsc (names : List String) : List String :=
  List.insertionSort (· ≤ ·) names

/-- Greedy left-to-right split of a character list at non-overlapping `__`
occurrences, with `acc` holding the reversed current token.  This is the
character-level model of Python `s.split("__")` (structural recursion so
the kernel can evaluate it, unlike `String.splitOn`). -/
def splitDunderChars (acc : List Char) : List Char → List (List Char)
  | [] => [acc.reverse]
  | [c] => [(c :: acc).reverse]
  | c1 :: c2 :: rest =>
      if c1 = '_' && c2 = '_' then acc.reverse :: splitDunderChars [] rest
      else splitDunderChars (c1 :: acc) (c2 :: rest)

/-- Python `k.split("__")`. -/
def pySplitDunder (k : String) : List String :=
  (splitDunderChars [] k.toList).map (fun cs => String.mk cs)

/-! ## Filter validator (current server, `validate_filters`) -/

/-- The fixed lookup-suffix vocabulary accepted by `validate_filters`. -/
def valid_suffixes : List String :=
  ["n", "ic", "nic", "isw", "nisw", "iew", "niew", "ie", "nie",
   "empty", "regex", "iregex", "lt", "lte", "gt", "gte", "in"]

/-- The `ValueError` message raised by `validate_filters` for a rejected
filter key.  It names the offending key and suggests two-step queries. -/
def invalidFilterMsg (k : String) : String :=
  "Invalid filter \x27" ++ k ++
    "\x27: Multi-hop relationship traversal or invalid lookup suffix not supported. " ++
    "Use direct field filters like \x27site_id\x27 or two-step queries."

/-- Validation of a single filter key: `none` means the key is accepted,
`some msg` is the `ValueError` message raised.  Mirrors the body of the
`for filter_name in filters` loop in `validate_filters`: exempt keys are
skipped, keys without `__` are skipped, a two-segment split whose last
segment is in the vocabulary is accepted, and any other key containing
`__` is rejected. -/
def validate_key (k : String) : Option String :=
  if k ∈ ["limit", "offset", "fields", "q"] then none
  else if (pySplitDunder k).length = 1 then none
  else if (pySplitDunder k).length = 2 ∧ (pySplitDunder k).getLastD "" ∈ valid_suffixes then
    none
  else some (invalidFilterMsg k)

/-- `validate_filters(filters)`: iterates the dict keys in order and raises
on the first offending key. -/
def validate_filters (filters : List (String × JVal)) : Except String Unit :=
  go (filters.map Prod.fst)
where
  go : List String → Except String Unit
    | [] => .ok ()
    | k :: rest =>
        match validate_key k with
        | some m => .error m
        | none => go rest

/-! ## Paginated fetcher with endpoint fallback (REST client `get`)

The current repository's REST client module (`netbox_mcp_server/netbox_client.py`)
is not part of the sources available here — only its tests and callers are —
so `clientGet` below is modelled from the spec. -/

/-- Outcome of one HTTP GET as seen by the client: a JSON body on success, an
HTTP status ≥ 400 with the exception text of `raise_for_status`, or a
transport-level failure with its exception text. -/
inductive HttpResp where
  | ok (body : JVal)
  | errStatus (code : Nat) (emsg : String)
  | transport (emsg : String)

/-- The network: a function from full URL and query parameters to a response. -/
abbrev NetEnv := String → List (String × JVal) → HttpResp

/-- Client construction parameters: the `/api` base URL and the
TLS-verification flag fixed at construction. -/
structure ClientCfg where
  apiUrl : String
  verifySsl : Bool

/-- A record of one issued HTTP request: URL, query parameters, and the
`verify` TLS setting passed on that request. -/
structure ClientReq where
  url : String
  params : List (String × JVal)
  verify : Bool

/-- Error raised out of the client `get`. `fuelOut` is a model artifact for
an unbounded `next` chain (never reached on finite backend data). -/
inductive ClientErr where
  | http (code : Nat) (emsg : String)
  | netfail (emsg : String)
  | fuelOut

/-- `_build_url`: `f"{api_url}/{endpoint}/"`, with `/{id}/` when an id is given. -/
def buildUrl (apiUrl endpoint : String) (id? : Option Int) : String :=
  match id? with
  | some i => apiUrl ++ "/" ++ endpoint ++ "/" ++ toString i ++ "/"
  | none => apiUrl ++ "/" ++ endpoint ++ "/"

/-- `"limit" in params` — presence of a key in the params dict. -/
def paramsHasKey (params : List (String × JVal)) (k : String) : Bool :=
  (slookup params k).isSome

/-- Modelled from the spec: the pagination-aggregation loop of the client
`get` (the client module itself is absent from the sources).  Starting from
the first page's `next` value, repeatedly fetch the full `next` URL (not
re-resolved, no extra params) until `next` is null, accumulating each page's
`results` in arrival order; an HTTP or transport error while following the
chain propagates (no silent partial data). -/
def followNext (env : NetEnv) (verify : Bool) :
    Nat → JVal → List JVal → Except ClientErr (List JVal) × List ClientReq
  | _, .null, acc => (.ok acc, [])
  | 0, .str _, _ => (.error .fuelOut, [])
  | fuel + 1, .str u, acc =>
      match env u [] with
      | .ok (.obj page) =>
          let rs := match jget page "results" with | some (.arr xs) => xs | _ => []
          let (res, tr) := followNext env verify fuel ((jget page "next").getD .null) (acc ++ rs)
          (res, ⟨u, [], verify⟩ :: tr)
      | .ok _ => (.ok acc, [⟨u, [], verify⟩])
      | .errStatus c m => (.error (.http c m), [⟨u, [], verify⟩])
      | .transport m => (.error (.netfail m), [⟨u, [], verify⟩])
  | _, _, acc => (.ok acc, [])

/-- Modelled from the spec: success handling of a list request (no id).  A
body with a `results` array is page 1: if the caller supplied `limit` or
`offset` the page is returned verbatim with its `count`/`next`/`previous`
metadata and no follow-up request; otherwise the `next` chain is followed and
the concatenated `results` are returned.  A body without a `results` array is
returned unmodified. -/
def handleListBody (env : NetEnv) (cfg : ClientCfg) (params : List (String × JVal))
    (body : JVal) (fuel : Nat) : Except ClientErr JVal × List ClientReq :=
  match body with
  | .obj page =>
      match jget page "results" with
      | some (.arr rs) =>
          if paramsHasKey params "limit" || paramsHasKey params "offset" then
            (.ok (.obj page), [])
          else
            let (res, tr) :=
              followNext env cfg.verifySsl fuel ((jget page "next").getD .null) rs
            (res.map JVal.arr, tr)
      | _ => (.ok (.obj page), [])
  | b => (.ok b, [])

/-- Modelled from the spec: the REST client `get` with endpoint fallback
(the module `netbox_mcp_server/netbox_client.py` is absent from the sources;
behaviour follows §4.3 of the spec and is pinned by its unit tests).  The
primary endpoint is requested first; on a 404 with a configured non-empty
fallback endpoint the identical request (same params, same id suffix, same
TLS setting) is retried exactly once against the fallback, whose failure
propagates as-is; any other error status propagates immediately with no
fallback request. -/
def clientGet (env : NetEnv) (cfg : ClientCfg) (endpoint : String) (id? : Option Int)
    (params : List (String × JVal)) (fallback : Option String) (fuel : Nat) :
    Except ClientErr JVal × List ClientReq :=
  let u1 := buildUrl cfg.apiUrl endpoint id?
  let r1 : ClientReq := ⟨u1, params, cfg.verifySsl⟩
  match env u1 params with
  | .ok body =>
      if id?.isSome then (.ok body, [r1])
      else
        let (res, tr) := handleListBody env cfg params body fuel
        (res, r1 :: tr)
  | .errStatus c m =>
      if c = 404 then
        match fallback with
        | some fb =>
            if fb = "" then (.error (.http c m), [r1])
            else
              let u2 := buildUrl cfg.apiUrl fb id?
              let r2 : ClientReq := ⟨u2, params, cfg.verifySsl⟩
              match env u2 params with
              | .ok body =>
                  if id?.isSome then (.ok body, [r1, r2])
                  else
                    let (res, tr) := handleListBody env cfg params body fuel
                    (res, r1 :: r2 :: tr)
              | .errStatus c2 m2 => (.error (.http c2 m2), [r1, r2])
              | .transport m2 => (.error (.netfail m2), [r1, r2])
        | none => (.error (.http c m), [r1])
      else (.error (.http c m), [r1])
  | .transport m => (.error (.netfail m), [r1])

/-- The backend serves, from the value `nxt`, a finite chain of pages: each
link is a full URL whose response is an object with a `results` array, and
the last page's `next` is null. -/
inductive ServesChain (env : NetEnv) : JVal → List (String × List JVal) → Prop where
  | nil : ServesChain env .null []
  | cons (u : String) (page : List (String × JVal)) (rs : List JVal)
      (rest : List (String × List JVal)) :
      env u [] = .ok (.obj page) →
      jget page "results" = some (.arr rs) →
      ServesChain env ((jget page "next").getD .null) rest →
      ServesChain env (.str u) ((u, rs) :: rest)

/-- A concrete three-page backend (pages of sizes 2, 2, 1) for witnesses. -/
def demoPagedEnv : NetEnv := fun u _ =>
  if u = "https://nb/api/dcim/devices/" then
    .ok (.obj [("count", .num 5), ("next", .str "P2"), ("previous", .null),
               ("results", .arr [.num 1, .num 2])])
  else if u = "P2" then
    .ok (.obj [("count", .num 5), ("next", .str "P3"), ("previous", .str "P1"),
               ("results", .arr [.num 3, .num 4])])
  else if u = "P3" then
    .ok (.obj [("count", .num 5), ("next", .null), ("previous", .str "P2"),
               ("results", .arr [.num 5])])
  else .errStatus 404 "404 Client Error"

/-- Client configuration used by the witnesses. -/
def demoCfg : ClientCfg := ⟨"https://nb/api", true⟩

/-- A backend whose primary endpoint answers 404 and whose fallback endpoint
answers with a one-object page, for the fallback witnesses. -/
def demoFallbackEnv : NetEnv := fun u _ =>
  if u = "https://nb/api/core/object-types/" then .errStatus 404 "404 Client Error"
  else if u = "https://nb/api/extras/object-types/" then
    .ok (.obj [("count", .num 1), ("next", .null), ("previous", .null),
               ("results", .arr [.obj [("id", .num 1)]])])
  else .errStatus 500 "500 Server Error"


/-! ## Historical server (`server.py` at repo root): filter resolution and
brief projection.  This is the code cited by C4-C6 and C9. -/

/-- A raised Python exception, as the pair of its class and message.
`filterResolutionError` is the server's own `FilterResolutionError` class;
`httpError`/`netError` are `requests` exceptions carrying their `str(e)`. -/
inductive PyExn where
  | valueError (msg : String)
  | filterResolutionError (msg : String)
  | httpError (status : Nat) (emsg : String)
  | netError (emsg : String)

/-- The Python class name of a raised exception. -/
def PyExn.clsName : PyExn → String
  | .valueError _ => "ValueError"
  | .filterResolutionError _ => "FilterResolutionError"
  | .httpError _ _ => "HTTPError"
  | .netError _ => "RequestException"

/-- ASCII uppercase, modelling Python `str.upper()` on model names. -/
def strUpper (s : String) : String :=
  String.mk (s.toList.map Char.toUpper)

/-- The historical server's `NETBOX_OBJECT_TYPES` mapping from simple object
names to API endpoints. -/
def NETBOX_OBJECT_TYPES_OLD : List (String × String) :=
  [("cables", "dcim/cables"),
   ("console-ports", "dcim/console-ports"),
   ("console-server-ports", "dcim/console-server-ports"),
   ("devices", "dcim/devices"),
   ("device-bays", "dcim/device-bays"),
   ("device-roles", "dcim/device-roles"),
   ("device-types", "dcim/device-types"),
   ("front-ports", "dcim/front-ports"),
   ("interfaces", "dcim/interfaces"),
   ("inventory-items", "dcim/inventory-items"),
   ("locations", "dcim/locations"),
   ("manufacturers", "dcim/manufacturers"),
   ("modules", "dcim/modules"),
   ("module-bays", "dcim/module-bays"),
   ("module-types", "dcim/module-types"),
   ("platforms", "dcim/platforms"),
   ("power-feeds", "dcim/power-feeds"),
   ("power-outlets", "dcim/power-outlets"),
   ("power-panels", "dcim/power-panels"),
   ("power-ports", "dcim/power-ports"),
   ("racks", "dcim/racks"),
   ("rack-reservations", "dcim/rack-reservations"),
   ("rack-roles", "dcim/rack-roles"),
   ("regions", "dcim/regions"),
   ("sites", "dcim/sites"),
   ("site-groups", "dcim/site-groups"),
   ("virtual-chassis", "dcim/virtual-chassis"),
   ("asns", "ipam/asns"),
   ("asn-ranges", "ipam/asn-ranges"),
   ("aggregates", "ipam/aggregates"),
   ("fhrp-groups", "ipam/fhrp-groups"),
   ("ip-addresses", "ipam/ip-addresses"),
   ("ip-ranges", "ipam/ip-ranges"),
   ("prefixes", "ipam/prefixes"),
   ("rirs", "ipam/rirs"),
   ("roles", "ipam/roles"),
   ("route-targets", "ipam/route-targets"),
   ("services", "ipam/services"),
   ("vlans", "ipam/vlans"),
   ("vlan-groups", "ipam/vlan-groups"),
   ("vrfs", "ipam/vrfs"),
   ("circuits", "circuits/circuits"),
   ("circuit-types", "circuits/circuit-types"),
   ("circuit-terminations", "circuits/circuit-terminations"),
   ("providers", "circuits/providers"),
   ("provider-networks", "circuits/provider-networks"),
   ("clusters", "virtualization/clusters"),
   ("cluster-groups", "virtualization/cluster-groups"),
   ("cluster-types", "virtualization/cluster-types"),
   ("virtual-machines", "virtualization/virtual-machines"),
   ("vm-interfaces", "virtualization/interfaces"),
   ("tenants", "tenancy/tenants"),
   ("tenant-groups", "tenancy/tenant-groups"),
   ("contacts", "tenancy/contacts"),
   ("contact-groups", "tenancy/contact-groups"),
   ("contact-roles", "tenancy/contact-roles"),
   ("ike-policies", "vpn/ike-policies"),
   ("ike-proposals", "vpn/ike-proposals"),
   ("ipsec-policies", "vpn/ipsec-policies"),
   ("ipsec-profiles", "vpn/ipsec-profiles"),
   ("ipsec-proposals", "vpn/ipsec-proposals"),
   ("l2vpns", "vpn/l2vpns"),
   ("tunnels", "vpn/tunnels"),
   ("tunnel-groups", "vpn/tunnel-groups"),
   ("wireless-lans", "wireless/wireless-lans"),
   ("wireless-lan-groups", "wireless/wireless-lan-groups"),
   ("wireless-links", "wireless/wireless-links"),
   ("config-contexts", "extras/config-contexts"),
   ("custom-fields", "extras/custom-fields"),
   ("export-templates", "extras/export-templates"),
   ("image-attachments", "extras/image-attachments"),
   ("jobs", "extras/jobs"),
   ("saved-filters", "extras/saved-filters"),
   ("scripts", "extras/scripts"),
   ("tags", "extras/tags"),
   ("webhooks", "extras/webhooks")]

/-- The valid logical names of the historical registry, sorted as Python
`sorted` does when the server builds its invalid-object_type message. -/
def sortedOldTypeNames : List String :=
  sortAsc (NETBOX_OBJECT_TYPES_OLD.map Prod.fst)

/-- `"Invalid object_type. Must be one of:" + newline-joined "- name"` --
the `ValueError` message raised for an unknown object type. -/
def invalidTypeMsg (names : List String) : String :=
  "Invalid object_type. Must be one of:\n" ++
    String.intercalate "\n" (names.map (fun t => "- " ++ t))

/-- The network seen by the historical server, keyed by endpoint (the old
client's URL assembly adds the base URL; requests are identified by their
endpoint and query parameters here). -/
abbrev OldEnv := String → List (String × JVal) → HttpResp

/-- A request issued by the historical server: endpoint and query params. -/
abbrev OldReq := String × List (String × JVal)

/-- The historical REST client `get` (`src/netbox_client.py`): on success,
a dict body with a `results` key yields `data["results"]`, any other body is
returned as-is; `raise_for_status` failures and transport failures raise. -/
def old_client_get (env : OldEnv) (endpoint : String) (params : List (String × JVal)) :
    Except PyExn JVal × List OldReq :=
  match env endpoint params with
  | .ok (.obj o) =>
      match jget o "results" with
      | some v => (.ok v, [(endpoint, params)])
      | none => (.ok (.obj o), [(endpoint, params)])
  | .ok body => (.ok body, [(endpoint, params)])
  | .errStatus c m => (.error (.httpError c m), [(endpoint, params)])
  | .transport m => (.error (.netError m), [(endpoint, params)])

/-- Insert an id into the set of collected ids (`ids.add(...)`): Python set
semantics modelled as a duplicate-free list in first-arrival order. -/
def insertId (ids : List Int) (n : Int) : List Int :=
  if n ∈ ids then ids else ids ++ [n]

/-- Collect the `id` fields of a lookup response into the id set: every dict
element of a list body contributes its integer `id`; a single dict body with
an `id` contributes it. -/
def extract_ids (results : JVal) : List Int :=
  match results with
  | .arr items =>
      items.foldl
        (fun ids it =>
          match it with
          | .obj o =>
              match jget o "id" with
              | some (.num n) => insertId ids n
              | _ => ids
          | _ => ids) []
  | .obj o =>
      match jget o "id" with
      | some (.num n) => [n]
      | _ => []
  | _ => []

/-- Message of the `FilterResolutionError` raised for a non-404 HTTP error
during a reference lookup. -/
def httpLookupMsg (target field : String) (value : JVal) (emsg : String) : String :=
  "API HTTP error during lookup for \x27" ++ target ++ "\x27 with \x27" ++ field ++
    "=" ++ pyStr value ++ "\x27: " ++ emsg

/-- Message of the `FilterResolutionError` raised for a network error during
a reference lookup. -/
def netLookupMsg (target field : String) (value : JVal) (emsg : String) : String :=
  "Network error during lookup for \x27" ++ target ++ "\x27 with \x27" ++ field ++
    "=" ++ pyStr value ++ "\x27: " ++ emsg

/-- `_fetch_ids_for_lookup`: resolve the target type's endpoint (an unknown
target is an internal configuration error answered with no ids and no
request), query it with `{lookup_field: lookup_value}`, and collect ids.
A 404 contributes zero ids and is not an error; any other HTTP error or a
network error raises `FilterResolutionError`. -/
def fetch_ids_for_lookup (env : OldEnv) (target_nb_type lookup_field : String)
    (lookup_value : JVal) : Except PyExn (List Int) × List OldReq :=
  match slookup NETBOX_OBJECT_TYPES_OLD target_nb_type with
  | none => (.ok [], [])
  | some endpoint =>
      match old_client_get env endpoint [(lookup_field, lookup_value)] with
      | (.ok results, tr) => (.ok (extract_ids results), tr)
      | (.error (.httpError c m), tr) =>
          if c = 404 then (.ok [], tr)
          else (.error (.filterResolutionError
            (httpLookupMsg target_nb_type lookup_field lookup_value m)), tr)
      | (.error (.netError m), tr) =>
          (.error (.filterResolutionError
            (netLookupMsg target_nb_type lookup_field lookup_value m)), tr)
      | (.error e, tr) => (.error e, tr)

/-- One entry of `RESOLVABLE_FIELD_MAP`: the configuration dict of a
resolvable filter key.  The policies are the literal strings the code
compares against. -/
structure Rule where
  target_nb_type : String
  lookup_fields : List String
  api_filter_key : String
  on_no_result : String
  on_multiple_results : String

/-- A resolvable-field map: object type to (filter key to rule). -/
abbrev FieldMap := List (String × List (String × Rule))

/-- The server's `RESOLVABLE_FIELD_MAP` dict literal. -/
def RESOLVABLE_FIELD_MAP : FieldMap :=
  [("devices",
    [("site_ref", ⟨"sites", ["name", "slug"], "site_id", "error", "error"⟩),
     ("tenant_ref", ⟨"tenants", ["name", "slug"], "tenant_id", "allow_empty", "error"⟩),
     ("manufacturer_name", ⟨"manufacturers", ["name"], "manufacturer_id", "error", "error"⟩),
     ("device_role_name", ⟨"device-roles", ["name", "slug"], "role_id", "error", "error"⟩),
     ("platform_name", ⟨"platforms", ["name", "slug"], "platform_id", "error", "error"⟩)]),
   ("ip-addresses",
    [("vrf_ref", ⟨"vrfs", ["name", "rd"], "vrf_id", "error", "error"⟩),
     ("tenant_ref", ⟨"tenants", ["name", "slug"], "tenant_id", "allow_empty", "error"⟩)]),
   ("vlans",
    [("site_ref", ⟨"sites", ["name", "slug"], "site_id", "error", "error"⟩),
     ("tenant_ref", ⟨"tenants", ["name", "slug"], "tenant_id", "allow_empty", "error"⟩),
     ("vlan_group_ref", ⟨"vlan-groups", ["name", "slug"], "group_id", "error", "error"⟩)])]

/-- One iteration of the lookup loop of `_resolve_and_prepare_filters`:
union the ids of one lookup field into the set (duplicates collapse), or
keep the first `FilterResolutionError` raised. -/
def collect_step (env : OldEnv) (target : String) (v : JVal)
    (acc : Except PyExn (List Int) × List OldReq) (f : String) :
    Except PyExn (List Int) × List OldReq :=
  match acc with
  | (.error e, tr) => (.error e, tr)
  | (.ok ids, tr) =>
      match fetch_ids_for_lookup env target f v with
      | (.ok newIds, tr2) => (.ok (newIds.foldl insertId ids), tr ++ tr2)
      | (.error e, tr2) => (.error e, tr ++ tr2)

/-- The lookup loop of `_resolve_and_prepare_filters`: try each configured
lookup field in order, union the collected ids as a set (duplicates across
lookup fields collapse), aborting on the first `FilterResolutionError`. -/
def collect_lookup_ids (env : OldEnv) (target : String) (v : JVal)
    (fields : List String) : Except PyExn (List Int) × List OldReq :=
  fields.foldl (collect_step env target v) (.ok [], [])

/-- `ValueError` message for a resolvable filter with zero matches under the
`error` policy: it names the filter key, its value, and the fields tried. -/
def noMatchMsg (target userKey : String) (value : JVal) (fields : List String) : String :=
  "No matching \x27" ++ target ++ "\x27 found for filter \x27" ++ userKey ++ "=\"" ++
    pyStr value ++ "\"\x27 (tried fields: " ++ String.intercalate ", " fields ++ ")."

/-- `ValueError` message for multiple matches under the `error` policy: it
names the match count. -/
def multipleMsg (n : Nat) (target userKey : String) (value : JVal) : String :=
  "Multiple (" ++ toString n ++ ") matching \x27" ++ target ++ "\x27 found for filter \x27" ++
    userKey ++ "=\"" ++ pyStr value ++ "\"\x27. Please be more specific or use an ID."

/-- `ValueError` message wrapping a `FilterResolutionError` raised during a
lookup (`str(fre)` is the inner message). -/
def criticalMsg (userKey : String) (value : JVal) (inner : String) : String :=
  "Critical error resolving filter \x27" ++ userKey ++ "=\"" ++ pyStr value ++
    "\"\x27: " ++ inner

/-- The per-entry loop of `_resolve_and_prepare_filters`, threading the
`api_filters` and `resolved_context_filters` dicts and the request trace.
A key with a rule runs the lookup loop and applies the no-result /
multiple-result policies; a `FilterResolutionError` from a lookup is caught
and re-raised as `ValueError`; a key without a rule passes through into both
dicts. -/
def resolve_go (env : OldEnv) (rules : List (String × Rule)) :
    List (String × JVal) → List (String × JVal) → List (String × JVal) → List OldReq →
    Except PyExn (List (String × JVal) × List (String × JVal)) × List OldReq
  | [], api, ctx, tr => (.ok (api, ctx), tr)
  | (k, v) :: rest, api, ctx, tr =>
      match slookup rules k with
      | none => resolve_go env rules rest (dictSet api k v) (dictSet ctx k v) tr
      | some rule =>
          match collect_lookup_ids env rule.target_nb_type v rule.lookup_fields with
          | (.error (.filterResolutionError m), tr2) =>
              (.error (.valueError (criticalMsg k v m)), tr ++ tr2)
          | (.error e, tr2) => (.error e, tr ++ tr2)
          | (.ok ids, tr2) =>
              if ids.isEmpty then
                if rule.on_no_result = "error" then
                  (.error (.valueError
                    (noMatchMsg rule.target_nb_type k v rule.lookup_fields)), tr ++ tr2)
                else if rule.on_no_result = "allow_empty" then
                  resolve_go env rules rest api (dictSet ctx k v) (tr ++ tr2)
                else
                  resolve_go env rules rest api ctx (tr ++ tr2)
              else
                if 1 < ids.length ∧ rule.on_multiple_results = "error" then
                  (.error (.valueError
                    (multipleMsg ids.length rule.target_nb_type k v)), tr ++ tr2)
                else
                  let fv : JVal :=
                    if rule.on_multiple_results = "use_all" then .arr (ids.map JVal.num)
                    else .num (ids.headD 0)
                  resolve_go env rules rest (dictSet api rule.api_filter_key fv)
                    (dictSet ctx k v) (tr ++ tr2)

/-- `_resolve_and_prepare_filters`, generalized over the resolvable-field
map (the server reads the module-level `RESOLVABLE_FIELD_MAP`). -/
def resolve_and_prepare_filters_with (fieldMap : FieldMap) (env : OldEnv)
    (object_type : String) (user_filters : List (String × JVal)) :
    Except PyExn (List (String × JVal) × List (String × JVal)) × List OldReq :=
  resolve_go env ((slookup fieldMap object_type).getD []) user_filters [] [] []

/-- `_resolve_and_prepare_filters` with the server's own map. -/
def resolve_and_prepare_filters (env : OldEnv) (object_type : String)
    (user_filters : List (String × JVal)) :
    Except PyExn (List (String × JVal) × List (String × JVal)) × List OldReq :=
  resolve_and_prepare_filters_with RESOLVABLE_FIELD_MAP env object_type user_filters

/-! ### Brief projection of the historical server -/

/-- The fixed keyword table inferring an OS family from the uppercased model
name: Nexus/Nxk/MDS substrings map to NX-OS, Catalyst/ISR/ASR to IOS. -/
def osClassify (model : String) : Option String :=
  let mu := strUpper model
  if strHasSub mu "NEXUS" || strHasSub mu "N9K" || strHasSub mu "N7K" ||
     strHasSub mu "N5K" || strHasSub mu "N3K" || strHasSub mu "N2K" ||
     strHasSub mu "MDS" then some "NX-OS"
  else if strHasSub mu "CATALYST" || strHasSub mu "ISR" || strHasSub mu "ASR" then
    some "IOS"
  else none

/-- Is `k` a resolvable filter key for this object type (membership in
`RESOLVABLE_FIELD_MAP.get(object_type, {})`)? -/
def isResolvableKey (object_type k : String) : Bool :=
  (slookup ((slookup RESOLVABLE_FIELD_MAP object_type).getD []) k).isSome

/-- The value the context-filter loop assigns for key `k` with context value
`v`: the context value for resolved keys and keys absent from the item;
otherwise the item's own value, preferring a choice field's `label`, falling
back to the context value when the item's value is `None`. -/
def ctxEchoValue (object_type : String) (item : List (String × JVal)) (k : String)
    (v : JVal) : JVal :=
  if isResolvableKey object_type k then v
  else
    match jget item k with
    | none => v
    | some (.obj o) =>
        match jget o "label" with
        | some l => l
        | none => .obj o
    | some .null => v
    | some fd => fd

/-- One iteration of the context-filter loop: assign the echoed value. -/
def ctxStep (object_type : String) (item : List (String × JVal))
    (brief : List (String × JVal)) (kv : String × JVal) : List (String × JVal) :=
  dictSet brief kv.1 (ctxEchoValue object_type item kv.1 kv.2)

/-- The base brief item: `id`, `display`, and `name` when the item has it. -/
def briefBase (item : List (String × JVal)) : List (String × JVal) :=
  let b : List (String × JVal) :=
    [("id", (jget item "id").getD .null), ("display", (jget item "display").getD .null)]
  match jget item "name" with
  | some nv => dictSet b "name" nv
  | none => b

/-- The nested-manufacturer brief field of a device (`manufacturer_name`
from `device_type.manufacturer.name` when that nested dict is truthy). -/
def devManufacturer (dt b0 : List (String × JVal)) : List (String × JVal) :=
  match jget dt "manufacturer" with
  | some (.obj man) =>
      if jTruthy (.obj man) then dictSet b0 "manufacturer_name" ((jget man "name").getD .null)
      else b0
  | _ => b0

/-- The model-derived brief fields of a device: `model_name` is always set
from `device_type.model`, and for a non-empty model string the `os_type`
inferred by the fixed keyword table is added. -/
def devModel (dt bm : List (String × JVal)) : List (String × JVal) :=
  match (jget dt "model").getD .null with
  | .str s =>
      if s ≠ "" then
        match osClassify s with
        | some os => dictSet (dictSet bm "model_name" (.str s)) "os_type" (.str os)
        | none => dictSet bm "model_name" (.str s)
      else dictSet bm "model_name" (.str s)
  | mv => dictSet bm "model_name" mv

/-- The `serial_number` brief field of a device (only for truthy serial). -/
def devSerial (item b1 : List (String × JVal)) : List (String × JVal) :=
  match jget item "serial" with
  | some sv => if jTruthy sv then dictSet b1 "serial_number" sv else b1
  | none => b1

/-- The `site_name` brief field of a device (from the nested site dict). -/
def devSite (item b2 : List (String × JVal)) : List (String × JVal) :=
  match jget item "site" with
  | some (.obj st) =>
      if jTruthy (.obj st) then dictSet b2 "site_name" ((jget st "name").getD .null)
      else b2
  | _ => b2

/-- The devices-only brief fields: `manufacturer_name` and `model_name` from
the nested `device_type`, the `os_type` inferred from the model name by
`osClassify`, `serial_number` when non-empty, and `site_name` from the
nested `site`.  A pure function of already-fetched data. -/
def deviceExtras (item b0 : List (String × JVal)) : List (String × JVal) :=
  let b1 :=
    match jget item "device_type" with
    | some (.obj dt) =>
        if jTruthy (.obj dt) then devModel dt (devManufacturer dt b0) else b0
    | _ => b0
  devSite item (devSerial item b1)

/-- The brief projection of one fetched object: base fields, devices-only
extras, then the echoed context filters. -/
def brief_item_of (object_type : String) (ctx : List (String × JVal))
    (item : List (String × JVal)) : List (String × JVal) :=
  let b := briefBase item
  let b := if object_type = "devices" then deviceExtras item b else b
  ctx.foldl (ctxStep object_type item) b

/-- Brief projection of one element of a result list (non-dict elements are
appended as-is). -/
def briefElem (object_type : String) (ctx : List (String × JVal)) (it : JVal) : JVal :=
  match it with
  | .obj o => .obj (brief_item_of object_type ctx o)
  | other => other

/-- The brief-mode shaping of the full fetch result: map over a list, wrap a
single dict (returned unwrapped), pass anything else through. -/
def briefTransform (object_type : String) (ctx : List (String × JVal)) (full : JVal) :
    JVal :=
  match full with
  | .arr items => .arr (items.map (briefElem object_type ctx))
  | .obj o => .obj (brief_item_of object_type ctx o)
  | other => other

/-- `netbox_get_objects` of the historical server: validate the object type
(raising the sorted-enumeration `ValueError` before any request), resolve
filters, fetch via the old client, and apply the brief projection unless
`brief=False`. -/
def netbox_get_objects_old (env : OldEnv) (object_type : String)
    (filters : List (String × JVal)) (brief : Bool) :
    Except PyExn JVal × List OldReq :=
  match slookup NETBOX_OBJECT_TYPES_OLD object_type with
  | none => (.error (.valueError (invalidTypeMsg sortedOldTypeNames)), [])
  | some endpoint =>
      match resolve_and_prepare_filters env object_type filters with
      | (.error e, tr) => (.error e, tr)
      | (.ok (api, ctx), tr) =>
          match old_client_get env endpoint api with
          | (.error e, tr2) => (.error e, tr ++ tr2)
          | (.ok full, tr2) =>
              if brief = false then (.ok full, tr ++ tr2)
              else (.ok (briefTransform object_type ctx full), tr ++ tr2)

/-- `netbox_get_object_by_id` of the historical server: validate the object
type the same way, then fetch `f"{endpoint}/{object_id}/"` with no params. -/
def netbox_get_object_by_id_old (env : OldEnv) (object_type : String) (object_id : Int) :
    Except PyExn JVal × List OldReq :=
  match slookup NETBOX_OBJECT_TYPES_OLD object_type with
  | none => (.error (.valueError (invalidTypeMsg sortedOldTypeNames)), [])
  | some endpoint =>
      old_client_get env (endpoint ++ "/" ++ toString object_id ++ "/") []

/-- A backend whose every list query answers an empty result page. -/
def demoEmptyEnv : OldEnv := fun _ _ =>
  .ok (.obj [("count", .num 0), ("next", .null), ("previous", .null),
             ("results", .arr [])])

/-- A backend answering 404 to everything. -/
def demo404Env : OldEnv := fun _ _ => .errStatus 404 "404 Client Error"

/-- A backend answering 500 to everything. -/
def demo500Env : OldEnv := fun _ _ => .errStatus 500 "500 Server Error"

/-- A backend where the sites name-lookup finds ids 1 and 2 and the sites
slug-lookup finds the same two ids in the other order (so 4 raw matches
collapse to the 2-element set). -/
def demoMultiEnv : OldEnv := fun ep params =>
  if ep = "dcim/sites" then
    if paramsHasKey params "name" then
      .ok (.obj [("results", .arr [.obj [("id", .num 1)], .obj [("id", .num 2)]])])
    else
      .ok (.obj [("results", .arr [.obj [("id", .num 2)], .obj [("id", .num 1)]])])
  else .errStatus 404 "404 Client Error"

/-- A resolvable-field map whose single rule keeps all matched ids
(`use_all`), for exercising that policy branch. -/
def demoFieldMap : FieldMap :=
  [("devices", [("site_ref", ⟨"sites", ["name", "slug"], "site_id", "error", "use_all"⟩)])]

/-! ## Current server (`src/netbox_mcp_server/server.py`): tools -/

/-- One entry of the current registry: primary endpoint and optional
fallback endpoint (`type_info["endpoint"]`, `type_info.get("fallback_endpoint")`). -/
structure TypeInfo where
  endpoint : String
  fallback : Option String

/-- An error surfaced by a current-server tool: a raised `ValueError` or a
propagated client exception. -/
inductive SrvErr where
  | valueError (msg : String)
  | client (e : ClientErr)

/-- Python `str.strip()` (whitespace at both ends), used on `ordering`. -/
def strTrim (s : String) : String :=
  String.mk (((s.toList.dropWhile Char.isWhitespace).reverse.dropWhile
    Char.isWhitespace).reverse)

/-- The default object types searched by `netbox_search_objects`. -/
def DEFAULT_SEARCH_TYPES : List String :=
  ["dcim.device", "dcim.site", "ipam.ipaddress", "dcim.interface", "dcim.rack",
   "ipam.vlan", "circuits.circuit", "virtualization.virtualmachine"]

/-- The `ValueError` message of `netbox_search_objects` for an unknown
object type, which quotes the offending type. -/
def invalidTypeMsgQ (t : String) (names : List String) : String :=
  "Invalid object_type \x27" ++ t ++ "\x27. Must be one of:\n" ++
    String.intercalate "\n" (names.map (fun n => "- " ++ n))

/-- The query-parameter dict built by `netbox_get_objects`: the caller's
filters dict, with `limit` and `offset` from the tool arguments assigned on
top (overriding any limit/offset inside the filters), then `fields`,
`brief` and `ordering` when given. -/
def get_objects_params (filters : List (String × JVal)) (fields_list : List String)
    (brief : Bool) (limit offset : Int) (ordering : String) : List (String × JVal) :=
  let p0 := dictSet (dictSet filters "limit" (.num limit)) "offset" (.num offset)
  let p1 :=
    if fields_list ≠ [] then
      dictSet p0 "fields" (.str (String.intercalate "," fields_list))
    else p0
  let p2 := if brief then dictSet p1 "brief" (.str "1") else p1
  if ordering ≠ "" ∧ strTrim ordering ≠ "" then dictSet p2 "ordering" (.str ordering)
  else p2

/-- `netbox_get_objects` of the current server: validate the object type
(raising the sorted enumeration before any request), validate the filters,
build the explicitly paginated params, and issue one client `get` with the
registry's endpoint and fallback.  `limit` and `offset` are the tool
arguments (defaults 5 and 0), already range-validated by the tool schema. -/
def netbox_get_objects_v2 (registry : List (String × TypeInfo)) (env : NetEnv)
    (cfg : ClientCfg) (object_type : String) (filters : List (String × JVal))
    (fields_list : List String) (brief : Bool) (limit : Int := 5) (offset : Int := 0)
    (ordering : String := "") (fuel : Nat := 0) :
    Except SrvErr JVal × List ClientReq :=
  match slookup registry object_type with
  | none => (.error (.valueError (invalidTypeMsg (sortAsc (registry.map Prod.fst)))), [])
  | some info =>
      match validate_filters filters with
      | .error m => (.error (.valueError m), [])
      | .ok _ =>
          let params := get_objects_params filters fields_list brief limit offset ordering
          match clientGet env cfg info.endpoint none params info.fallback fuel with
          | (.ok v, tr) => (.ok v, tr)
          | (.error e, tr) => (.error (.client e), tr)

/-- `netbox_get_object_by_id` of the current server: validate the object
type, embed the id into the endpoint and the fallback, and issue one client
`get`. -/
def netbox_get_object_by_id_v2 (registry : List (String × TypeInfo)) (env : NetEnv)
    (cfg : ClientCfg) (object_type : String) (object_id : Int)
    (fields_list : List String) (brief : Bool) (fuel : Nat := 0) :
    Except SrvErr JVal × List ClientReq :=
  match slookup registry object_type with
  | none => (.error (.valueError (invalidTypeMsg (sortAsc (registry.map Prod.fst)))), [])
  | some info =>
      let full_endpoint := info.endpoint ++ "/" ++ toString object_id
      let full_fallback := info.fallback.map (fun fb => fb ++ "/" ++ toString object_id)
      let p0 : List (String × JVal) :=
        if fields_list ≠ [] then
          [("fields", .str (String.intercalate "," fields_list))]
        else []
      let p1 := if brief then dictSet p0 "brief" (.str "1") else p0
      match clientGet env cfg full_endpoint none p1 full_fallback fuel with
      | (.ok v, tr) => (.ok v, tr)
      | (.error e, tr) => (.error (.client e), tr)

/-- The per-type search params: `q`, `limit`, and `fields` (a null `fields`
models the `None` that the transport drops). -/
def search_params (query : String) (limit : Int) (fields_list : List String) :
    List (String × JVal) :=
  [("q", .str query), ("limit", .num limit),
   ("fields",
    if fields_list ≠ [] then .str (String.intercalate "," fields_list) else .null)]

/-- One sub-lookup of the global search: any raised exception — a client
error, a missing registry entry, or a non-dict response (whose `.get` would
raise) — is caught and yields the empty list for that type only; a page
response yields its `results` array. -/
def search_one (registry : List (String × TypeInfo)) (env : NetEnv) (cfg : ClientCfg)
    (query : String) (limit : Int) (fields_list : List String) (fuel : Nat)
    (t : String) : JVal × List ClientReq :=
  match slookup registry t with
  | none => (.arr [], [])
  | some info =>
      match clientGet env cfg info.endpoint none (search_params query limit fields_list)
          info.fallback fuel with
      | (.ok (.obj o), tr) => ((jget o "results").getD (.arr []), tr)
      | (.ok _, tr) => (.arr [], tr)
      | (.error _, tr) => (.arr [], tr)

/-- One iteration of the search loop: append this type's key and value and
record the requests it issued. -/
def searchStep (registry : List (String × TypeInfo)) (env : NetEnv) (cfg : ClientCfg)
    (query : String) (limit : Int) (fields_list : List String) (fuel : Nat)
    (acc : List (String × JVal) × List ClientReq) (t : String) :
    List (String × JVal) × List ClientReq :=
  let (v, tr2) := search_one registry env cfg query limit fields_list fuel t
  (acc.1 ++ [(t, v)], acc.2 ++ tr2)

/-- `netbox_search_objects` of the current server: default the type list
when empty, validate every requested type up front (raising on the first
unknown one before any request), then build the keyed result structure with
one error-resilient sub-lookup per type.  The Python result dict keyed by
the (distinct) requested types is modelled as the association list in
request order. -/
def netbox_search_objects_v2 (registry : List (String × TypeInfo)) (env : NetEnv)
    (cfg : ClientCfg) (query : String) (object_types : List String)
    (fields_list : List String) (limit : Int := 5) (fuel : Nat := 0) :
    Except SrvErr (List (String × JVal)) × List ClientReq :=
  let search_types := if object_types.isEmpty then DEFAULT_SEARCH_TYPES else object_types
  match search_types.find? (fun t => (slookup registry t).isNone) with
  | some bad =>
      (.error (.valueError (invalidTypeMsgQ bad (sortAsc (registry.map Prod.fst)))), [])
  | none =>
      let r := search_types.foldl (searchStep registry env cfg query limit fields_list fuel)
        ([], [])
      (.ok r.1, r.2)

/-- A two-entry registry for the current-server witnesses. -/
def demoRegistry : List (String × TypeInfo) :=
  [("core.objecttype", ⟨"core/object-types", some "extras/object-types"⟩),
   ("dcim.device", ⟨"dcim/devices", none⟩),
   ("dcim.site", ⟨"dcim/sites", none⟩)]

/-- A backend for the search witness: devices answer one result, sites
answer 500, everything else an empty page. -/
def demoSearchEnv : NetEnv := fun u _ =>
  if u = "https://nb/api/dcim/devices/" then
    .ok (.obj [("count", .num 1), ("next", .null), ("previous", .null),
               ("results", .arr [.obj [("id", .num 1), ("name", .str "sw1")]])])
  else if u = "https://nb/api/dcim/sites/" then .errStatus 500 "500 Server Error"
  else
    .ok (.obj [("count", .num 0), ("next", .null), ("previous", .null),
               ("results", .arr [])])

/-! ## Theorems -/

/-- C3: `validate_key` accepts exactly the exempt keys, the keys without a
double underscore, and the two-segment keys whose suffix lies in the fixed
vocabulary; every other key containing `__` is rejected with the message
naming the key and suggesting the two-step alternative; and the dict-level
validator succeeds iff every key is accepted. -/
theorem c3_filter_validation :
    (∀ k : String,
      validate_key k = none ↔
        (k ∈ ["limit", "offset", "fields", "q"] ∨
         (pySplitDunder k).length = 1 ∨
         ((pySplitDunder k).length = 2 ∧ (pySplitDunder k).getLastD "" ∈ valid_suffixes)))
    ∧ (∀ k : String, validate_key k = none ∨ validate_key k = some
        ("Invalid filter \x27" ++ k ++
          "\x27: Multi-hop relationship traversal or invalid lookup suffix not supported. " ++
          "Use direct field filters like \x27site_id\x27 or two-step queries."))
    ∧ (∀ filters : List (String × JVal),
        validate_filters filters = .ok () ↔
          ∀ k ∈ filters.map Prod.fst, validate_key k = none) := by
  refine ⟨?_, ?_, ?_⟩
  · intro k
    unfold validate_key
    split
    · simp_all
    · split
      · simp_all
      · split
        · simp_all
        · simp_all [invalidFilterMsg]
  · intro k
    unfold validate_key
    split
    · simp
    · split
      · simp
      · split
        · simp
        · simp [invalidFilterMsg]
  · intro filters
    unfold validate_filters
    generalize filters.map Prod.fst = ks
    induction ks with
    | nil => simp [validate_filters.go]
    | cons k rest ih =>
        simp only [validate_filters.go]
        cases h : validate_key k with
        | none => simpa [h] using ih
        | some m => simp [h]

/-- Witness for C3 at concrete keys: `name__ic` and the exempt `limit` pass,
while the multi-hop key `device__site_id` fails with the message naming it. -/
theorem c3_filter_validation_witness :
    validate_key "name__ic" = none ∧
    validate_key "limit" = none ∧
    validate_key "device__site_id" =
      some ("Invalid filter \x27device__site_id" ++
        "\x27: Multi-hop relationship traversal or invalid lookup suffix not supported. " ++
        "Use direct field filters like \x27site_id\x27 or two-step queries.") := by
  refine ⟨?_, ?_, ?_⟩
  · exact (c3_filter_validation.1 "name__ic").mpr (by decide)
  · exact (c3_filter_validation.1 "limit").mpr (by decide)
  · rcases c3_filter_validation.2.1 "device__site_id" with h | h
    · exact absurd ((c3_filter_validation.1 "device__site_id").mp h) (by decide)
    · simpa using h

/-- Helper: following a served chain accumulates every page's results in
arrival order and issues exactly one request per chain link. -/
theorem followNext_of_servesChain (env : NetEnv) (verify : Bool) :
    ∀ {nxt : JVal} {chain : List (String × List JVal)}, ServesChain env nxt chain →
    ∀ (acc : List JVal) (fuel : Nat), chain.length ≤ fuel →
      followNext env verify fuel nxt acc =
        (.ok (acc ++ (chain.map Prod.snd).flatten),
         chain.map (fun p => ⟨p.1, [], verify⟩)) := by
  intro nxt chain h
  induction h with
  | nil =>
      intro acc fuel _
      simp [followNext]
  | cons u page rs rest henv hres hrest ih =>
      intro acc fuel hfuel
      cases fuel with
      | zero => simp at hfuel
      | succ f =>
          simp only [followNext, henv, hres]
          rw [ih (acc ++ rs) f (by simpa using hfuel)]
          simp

/-- C1: a list fetch (no id) whose first page holds a `results` array: when
the caller supplied no `limit`/`offset`, the client follows the `next` chain
to its null end and returns the concatenation of all pages' `results` in
arrival order, with one request per page; when the caller supplied `limit`
or `offset`, it returns the first page verbatim (with its `count`/`next`/
`previous` metadata) after exactly one request, issuing zero follow-ups. -/
theorem c1_pagination_aggregation (env : NetEnv) (cfg : ClientCfg) (endpoint : String)
    (params : List (String × JVal)) (page : List (String × JVal)) (rs : List JVal)
    (chain : List (String × List JVal)) (fuel : Nat)
    (henv : env (buildUrl cfg.apiUrl endpoint none) params = .ok (.obj page))
    (hres : jget page "results" = some (.arr rs)) :
    (paramsHasKey params "limit" = false → paramsHasKey params "offset" = false →
      ServesChain env ((jget page "next").getD .null) chain →
      chain.length ≤ fuel →
      clientGet env cfg endpoint none params none fuel =
        (.ok (.arr (rs ++ (chain.map Prod.snd).flatten)),
         ⟨buildUrl cfg.apiUrl endpoint none, params, cfg.verifySsl⟩ ::
           chain.map (fun p => ⟨p.1, [], cfg.verifySsl⟩)))
    ∧ ((paramsHasKey params "limit" = true ∨ paramsHasKey params "offset" = true) →
      clientGet env cfg endpoint none params none fuel =
        (.ok (.obj page),
         [⟨buildUrl cfg.apiUrl endpoint none, params, cfg.verifySsl⟩])) := by
  constructor
  · intro hlim hoff hchain hfuel
    simp only [clientGet, henv, Option.isSome_none, Bool.false_eq_true, if_false,
      handleListBody, hres, hlim, hoff, Bool.or_self]
    rw [followNext_of_servesChain env cfg.verifySsl hchain rs fuel hfuel]
    simp [Except.map]
  · intro hlo
    simp only [clientGet, henv, Option.isSome_none, Bool.false_eq_true, if_false,
      handleListBody, hres]
    rcases hlo with h | h <;> simp [h]

/-- Witness for C1: on the concrete three-page backend (sizes 2, 2, 1) a
fetch without `limit`/`offset` returns all 5 objects in page order with one
request per page, and a fetch with `limit=2` returns the first page verbatim
with a single request. -/
theorem c1_pagination_aggregation_witness :
    clientGet demoPagedEnv demoCfg "dcim/devices" none [] none 2 =
      (.ok (.arr [.num 1, .num 2, .num 3, .num 4, .num 5]),
       [⟨"https://nb/api/dcim/devices/", [], true⟩, ⟨"P2", [], true⟩, ⟨"P3", [], true⟩]) ∧
    clientGet demoPagedEnv demoCfg "dcim/devices" none [("limit", .num 2)] none 2 =
      (.ok (.obj [("count", .num 5), ("next", .str "P2"), ("previous", .null),
                  ("results", .arr [.num 1, .num 2])]),
       [⟨"https://nb/api/dcim/devices/", [("limit", .num 2)], true⟩]) := by
  constructor
  · have h := (c1_pagination_aggregation demoPagedEnv demoCfg "dcim/devices" []
      [("count", .num 5), ("next", .str "P2"), ("previous", .null),
       ("results", .arr [.num 1, .num 2])]
      [.num 1, .num 2]
      [("P2", [.num 3, .num 4]), ("P3", [.num 5])] 2 rfl rfl).1 rfl rfl
      (ServesChain.cons "P2"
        [("count", .num 5), ("next", .str "P3"), ("previous", .str "P1"),
         ("results", .arr [.num 3, .num 4])] [.num 3, .num 4] _ rfl rfl
        (ServesChain.cons "P3"
          [("count", .num 5), ("next", .null), ("previous", .str "P2"),
           ("results", .arr [.num 5])] [.num 5] _ rfl rfl ServesChain.nil))
      (by simp)
    exact h.trans (by rfl)
  · have h := (c1_pagination_aggregation demoPagedEnv demoCfg "dcim/devices"
      [("limit", .num 2)]
      [("count", .num 5), ("next", .str "P2"), ("previous", .null),
       ("results", .arr [.num 1, .num 2])]
      [.num 1, .num 2] [] 2 rfl rfl).2 (Or.inl rfl)
    exact h

/-- C2: when the primary endpoint answers 404 and a non-empty fallback is
configured, exactly one retry is issued against the fallback with identical
query parameters, identical id suffix and identical TLS setting, and a
failing retry propagates its own error with no further request; when the
primary answers any other error status (403, 500, ...), no fallback request
is ever issued and the error propagates immediately. -/
theorem c2_fallback_retry (env : NetEnv) (cfg : ClientCfg) (endpoint fb : String)
    (id? : Option Int) (params : List (String × JVal)) (fuel : Nat) (c : Nat) (m : String) :
    (env (buildUrl cfg.apiUrl endpoint id?) params = .errStatus 404 m → fb ≠ "" →
      ∃ rest, (clientGet env cfg endpoint id? params (some fb) fuel).2 =
        ⟨buildUrl cfg.apiUrl endpoint id?, params, cfg.verifySsl⟩ ::
        ⟨buildUrl cfg.apiUrl fb id?, params, cfg.verifySsl⟩ :: rest)
    ∧ (env (buildUrl cfg.apiUrl endpoint id?) params = .errStatus 404 m → fb ≠ "" →
      ∀ c2 m2, env (buildUrl cfg.apiUrl fb id?) params = .errStatus c2 m2 →
        clientGet env cfg endpoint id? params (some fb) fuel =
          (.error (.http c2 m2),
           [⟨buildUrl cfg.apiUrl endpoint id?, params, cfg.verifySsl⟩,
            ⟨buildUrl cfg.apiUrl fb id?, params, cfg.verifySsl⟩]))
    ∧ (env (buildUrl cfg.apiUrl endpoint id?) params = .errStatus c m → c ≠ 404 →
      ∀ fallback : Option String,
        clientGet env cfg endpoint id? params fallback fuel =
          (.error (.http c m),
           [⟨buildUrl cfg.apiUrl endpoint id?, params, cfg.verifySsl⟩])) := by
  refine ⟨?_, ?_, ?_⟩
  · intro henv hfb
    simp only [clientGet, henv, if_pos rfl, if_neg hfb]
    cases h2 : env (buildUrl cfg.apiUrl fb id?) params with
    | ok body =>
        cases hid : id?.isSome <;> simp [hid]
    | errStatus c2 m2 => simp
    | transport m2 => simp
  · intro henv hfb c2 m2 h2
    simp only [clientGet, henv, if_pos rfl, if_neg hfb, h2]
    simp
  · intro henv hc fallback
    simp only [clientGet, henv, if_neg hc]

/-- Witness for C2: on the concrete fallback backend, a 404 on the primary
triggers exactly one fallback request with identical parameters, which
succeeds; and a direct 500 answer propagates with a single request. -/
theorem c2_fallback_retry_witness :
    (∃ rest, (clientGet demoFallbackEnv demoCfg "core/object-types" none
        [("limit", .num 5)] (some "extras/object-types") 1).2 =
      ⟨"https://nb/api/core/object-types/", [("limit", .num 5)], true⟩ ::
      ⟨"https://nb/api/extras/object-types/", [("limit", .num 5)], true⟩ :: rest) ∧
    clientGet demoFallbackEnv demoCfg "core/object-types" none [("limit", .num 5)]
        (some "extras/object-types") 1 =
      (.ok (.obj [("count", .num 1), ("next", .null), ("previous", .null),
                  ("results", .arr [.obj [("id", .num 1)]])]),
       [⟨"https://nb/api/core/object-types/", [("limit", .num 5)], true⟩,
        ⟨"https://nb/api/extras/object-types/", [("limit", .num 5)], true⟩]) ∧
    clientGet demoFallbackEnv demoCfg "dcim/devices" none []
        (some "extras/object-types") 1 =
      (.error (.http 500 "500 Server Error"),
       [⟨"https://nb/api/dcim/devices/", [], true⟩]) := by
  refine ⟨?_, ?_, ?_⟩
  · exact (c2_fallback_retry demoFallbackEnv demoCfg "core/object-types"
      "extras/object-types" none [("limit", .num 5)] 1 404 "404 Client Error").1
      rfl (by decide)
  · rfl
  · exact (c2_fallback_retry demoFallbackEnv demoCfg "dcim/devices"
      "extras/object-types" none [] 1 500 "500 Server Error").2.2
      rfl (by decide) (some "extras/object-types")

/-- Helper: once a lookup has raised, the remaining lookup fields are
skipped (the error and trace pass through the rest of the fold). -/
theorem collect_error_absorb (env : OldEnv) (target : String) (v : JVal) (e : PyExn)
    (tr : List OldReq) :
    ∀ fs : List String, fs.foldl (collect_step env target v) (.error e, tr) = (.error e, tr) := by
  intro fs
  induction fs with
  | nil => rfl
  | cons f rest ih => simpa [collect_step] using ih

/-- Helper: lookups that all yield zero ids leave the id set unchanged. -/
theorem collect_ok_of_all_empty (env : OldEnv) (target : String) (v : JVal) :
    ∀ (fs : List String), (∀ f ∈ fs, (fetch_ids_for_lookup env target f v).1 = .ok []) →
    ∀ (ids : List Int) (tr : List OldReq),
      (fs.foldl (collect_step env target v) (.ok ids, tr)).1 = .ok ids := by
  intro fs
  induction fs with
  | nil => intro _ ids tr; rfl
  | cons f rest ih =>
      intro h ids tr
      have hf := h f (by simp)
      cases hfetch : fetch_ids_for_lookup env target f v with
      | mk res tr2 =>
          rw [hfetch] at hf
          simp only at hf
          subst hf
          simp only [List.foldl_cons, collect_step, hfetch]
          exact ih (fun g hg => h g (by simp [hg])) ids (tr ++ tr2)

/-- C6: during a secondary reference lookup, a 404 answer contributes zero
ids and raises nothing; any other HTTP error status raises
`FilterResolutionError`, as does a transport error; and such a raised
lookup error aborts the entire resolution of the filter as a hard
`ValueError` failure. -/
theorem c6_lookup_error_handling (env : OldEnv) (target field : String) (v : JVal)
    (endpoint : String)
    (hend : slookup NETBOX_OBJECT_TYPES_OLD target = some endpoint) :
    (∀ m, env endpoint [(field, v)] = .errStatus 404 m →
      fetch_ids_for_lookup env target field v = (.ok [], [(endpoint, [(field, v)])]))
    ∧ (∀ c m, env endpoint [(field, v)] = .errStatus c m → c ≠ 404 →
      fetch_ids_for_lookup env target field v =
        (.error (.filterResolutionError (httpLookupMsg target field v m)),
         [(endpoint, [(field, v)])]))
    ∧ (∀ m, env endpoint [(field, v)] = .transport m →
      fetch_ids_for_lookup env target field v =
        (.error (.filterResolutionError (netLookupMsg target field v m)),
         [(endpoint, [(field, v)])]))
    ∧ (∀ (fieldMap : FieldMap) (ot k : String) (rule : Rule)
        (rules : List (String × Rule)) (fs : List String) (em : String),
      slookup fieldMap ot = some rules →
      slookup rules k = some rule →
      rule.target_nb_type = target →
      rule.lookup_fields = field :: fs →
      (fetch_ids_for_lookup env target field v).1 = .error (.filterResolutionError em) →
      (resolve_and_prepare_filters_with fieldMap env ot [(k, v)]).1 =
        .error (.valueError (criticalMsg k v em))) := by
  refine ⟨?_, ?_, ?_, ?_⟩
  · intro m henv
    simp [fetch_ids_for_lookup, hend, old_client_get, henv]
  · intro c m henv hc
    simp [fetch_ids_for_lookup, hend, old_client_get, henv, hc]
  · intro m henv
    simp [fetch_ids_for_lookup, hend, old_client_get, henv]
  · intro fieldMap ot k rule rules fs em hmap hrule htarget hfields hfail
    cases hfetch : fetch_ids_for_lookup env target field v with
    | mk res tr2 =>
        rw [hfetch] at hfail
        simp only at hfail
        subst hfail
        simp only [resolve_and_prepare_filters_with, hmap, Option.getD_some, resolve_go,
          hrule, collect_lookup_ids, hfields, htarget, List.foldl_cons, collect_step,
          hfetch, collect_error_absorb]

/-- Witness for C6: with the sites endpoint in the registry, a 404 backend
yields zero ids without raising, a 500 backend raises
`FilterResolutionError`, and resolving `site_ref` on the 500 backend aborts
with the wrapping `ValueError`. -/
theorem c6_lookup_error_handling_witness :
    fetch_ids_for_lookup demo404Env "sites" "name" (.str "HQ") =
      (.ok [], [("dcim/sites", [("name", .str "HQ")])]) ∧
    fetch_ids_for_lookup demo500Env "sites" "name" (.str "HQ") =
      (.error (.filterResolutionError
        (httpLookupMsg "sites" "name" (.str "HQ") "500 Server Error")),
       [("dcim/sites", [("name", .str "HQ")])]) ∧
    (resolve_and_prepare_filters demo500Env "devices" [("site_ref", .str "HQ")]).1 =
      .error (.valueError (criticalMsg "site_ref" (.str "HQ")
        (httpLookupMsg "sites" "name" (.str "HQ") "500 Server Error"))) := by
  refine ⟨?_, ?_, ?_⟩
  · exact (c6_lookup_error_handling demo404Env "sites" "name" (.str "HQ") "dcim/sites"
      rfl).1 "404 Client Error" rfl
  · exact (c6_lookup_error_handling demo500Env "sites" "name" (.str "HQ") "dcim/sites"
      rfl).2.1 500 "500 Server Error" rfl (by decide)
  · exact (c6_lookup_error_handling demo500Env "sites" "name" (.str "HQ") "dcim/sites"
      rfl).2.2.2 RESOLVABLE_FIELD_MAP "devices" "site_ref"
      ⟨"sites", ["name", "slug"], "site_id", "error", "error"⟩ _ ["slug"]
      (httpLookupMsg "sites" "name" (.str "HQ") "500 Server Error")
      rfl rfl rfl rfl rfl

/-- C4 (amended): a resolvable filter whose lookups over all configured
lookup fields yield zero ids fails with a `ValueError` — not the
`FilterResolutionError` class, which the code reserves for lookup transport
errors — naming the filter key, its value and the fields tried when the
rule's `on_no_result` policy is `error`; under `allow_empty` the filter is
omitted from the backend filters while the original key and value are still
recorded in the context filters. -/
theorem c4_zero_id_policies (fieldMap : FieldMap) (env : OldEnv) (ot k : String) (v : JVal)
    (rule : Rule) (rules : List (String × Rule))
    (hmap : slookup fieldMap ot = some rules)
    (hrule : slookup rules k = some rule)
    (hzero : ∀ f ∈ rule.lookup_fields, (fetch_ids_for_lookup env rule.target_nb_type f v).1 = .ok []) :
    (rule.on_no_result = "error" →
      (resolve_and_prepare_filters_with fieldMap env ot [(k, v)]).1 =
        .error (.valueError (noMatchMsg rule.target_nb_type k v rule.lookup_fields)))
    ∧ (rule.on_no_result = "allow_empty" →
      (resolve_and_prepare_filters_with fieldMap env ot [(k, v)]).1 =
        .ok ([], [(k, v)])) := by
  have hcoll : (collect_lookup_ids env rule.target_nb_type v rule.lookup_fields).1 = .ok [] :=
    collect_ok_of_all_empty env rule.target_nb_type v rule.lookup_fields hzero [] []
  cases hc : collect_lookup_ids env rule.target_nb_type v rule.lookup_fields with
  | mk res tr2 =>
      rw [hc] at hcoll
      simp only at hcoll
      subst hcoll
      constructor
      · intro hpol
        simp [resolve_and_prepare_filters_with, hmap, resolve_go, hrule, hc, hpol]
      · intro hpol
        simp [resolve_and_prepare_filters_with, hmap, resolve_go, hrule, hc, hpol,
          dictSet]

/-- Witness for C4: on the all-empty backend, `site_ref` (policy `error`)
fails with the `ValueError` naming key, value and tried fields, while
`tenant_ref` (policy `allow_empty`) is dropped from the backend filters yet
kept in the context filters. -/
theorem c4_zero_id_policies_witness :
    (resolve_and_prepare_filters demoEmptyEnv "devices" [("site_ref", .str "Nowhere")]).1 =
      .error (.valueError (noMatchMsg "sites" "site_ref" (.str "Nowhere") ["name", "slug"])) ∧
    (resolve_and_prepare_filters demoEmptyEnv "devices" [("tenant_ref", .str "Nobody")]).1 =
      .ok ([], [("tenant_ref", .str "Nobody")]) := by
  constructor
  · exact (c4_zero_id_policies RESOLVABLE_FIELD_MAP demoEmptyEnv "devices" "site_ref"
      (.str "Nowhere") ⟨"sites", ["name", "slug"], "site_id", "error", "error"⟩ _
      rfl rfl (by intro f hf; fin_cases hf <;> rfl)).1 rfl
  · exact (c4_zero_id_policies RESOLVABLE_FIELD_MAP demoEmptyEnv "devices" "tenant_ref"
      (.str "Nobody") ⟨"tenants", ["name", "slug"], "tenant_id", "allow_empty", "error"⟩ _
      rfl rfl (by intro f hf; fin_cases hf <;> rfl)).2 rfl

/-- Counterexample for C4 as stated: at the concrete zero-match input the
raised exception is a `ValueError`, not an instance of the code's own
`FilterResolutionError` class. -/
theorem c4_counterexample :
    (resolve_and_prepare_filters demoEmptyEnv "devices" [("site_ref", .str "Nowhere")]).1 =
      .error (.valueError (noMatchMsg "sites" "site_ref" (.str "Nowhere") ["name", "slug"])) ∧
    (¬ ∃ m, (resolve_and_prepare_filters demoEmptyEnv "devices"
        [("site_ref", .str "Nowhere")]).1 = .error (.filterResolutionError m)) := by
  constructor
  · rfl
  · rintro ⟨m, hm⟩
    have h0 : (resolve_and_prepare_filters demoEmptyEnv "devices"
        [("site_ref", JVal.str "Nowhere")]).1 =
      .error (.valueError (noMatchMsg "sites" "site_ref" (.str "Nowhere") ["name", "slug"])) := rfl
    rw [h0] at hm
    injection hm with h1
    exact PyExn.noConfusion h1

/-- Helper: inserting into the id set preserves duplicate-freeness. -/
theorem nodup_insertId (ids : List Int) (n : Int) (h : ids.Nodup) :
    (insertId ids n).Nodup := by
  unfold insertId
  split
  · exact h
  · next hn => simp [List.nodup_append, h, hn]

/-- Helper: the union fold over lookup results stays duplicate-free. -/
theorem nodup_foldl_insertId : ∀ (l ids : List Int), ids.Nodup → (l.foldl insertId ids).Nodup := by
  intro l
  induction l with
  | nil => intro ids h; exact h
  | cons x rest ih => intro ids h; exact ih _ (nodup_insertId ids x h)

/-- C5: ids matched across the two configured lookup fields are unioned as a
set (duplicates found via different fields collapse, so the collected list is
duplicate-free); more than one collected id under `on_multiple_results =
error` fails with the `ValueError` naming the count; under `use_all` the
backend filter value is the full id list; and otherwise a single id is
used. -/
theorem c5_multiple_id_policies (fieldMap : FieldMap) (env : OldEnv) (ot k f1 f2 : String)
    (v : JVal) (rule : Rule) (rules : List (String × Rule)) (l1 l2 ids : List Int)
    (hmap : slookup fieldMap ot = some rules)
    (hrule : slookup rules k = some rule)
    (hfields : rule.lookup_fields = [f1, f2])
    (h1 : (fetch_ids_for_lookup env rule.target_nb_type f1 v).1 = .ok l1)
    (h2 : (fetch_ids_for_lookup env rule.target_nb_type f2 v).1 = .ok l2)
    (hids : l2.foldl insertId (l1.foldl insertId []) = ids) :
    (collect_lookup_ids env rule.target_nb_type v rule.lookup_fields).1 = .ok ids
    ∧ ids.Nodup
    ∧ (1 < ids.length → rule.on_multiple_results = "error" →
      (resolve_and_prepare_filters_with fieldMap env ot [(k, v)]).1 =
        .error (.valueError (multipleMsg ids.length rule.target_nb_type k v)))
    ∧ (ids ≠ [] → rule.on_multiple_results = "use_all" →
      (resolve_and_prepare_filters_with fieldMap env ot [(k, v)]).1 =
        .ok ([(rule.api_filter_key, .arr (ids.map JVal.num))], [(k, v)]))
    ∧ (ids ≠ [] → (ids.length ≤ 1 ∨ rule.on_multiple_results ≠ "error") →
      rule.on_multiple_results ≠ "use_all" →
      (resolve_and_prepare_filters_with fieldMap env ot [(k, v)]).1 =
        .ok ([(rule.api_filter_key, .num (ids.headD 0))], [(k, v)])) := by
  cases hf1 : fetch_ids_for_lookup env rule.target_nb_type f1 v with
  | mk r1 t1 =>
  cases hf2 : fetch_ids_for_lookup env rule.target_nb_type f2 v with
  | mk r2 t2 =>
  rw [hf1] at h1
  rw [hf2] at h2
  simp only at h1 h2
  subst h1
  subst h2
  have hcoll : collect_lookup_ids env rule.target_nb_type v rule.lookup_fields =
      (.ok ids, t1 ++ t2) := by
    simp [collect_lookup_ids, hfields, collect_step, hf1, hf2, hids]
  refine ⟨by rw [hcoll], hids ▸ nodup_foldl_insertId l2 _ (nodup_foldl_insertId l1 [] (by simp)), ?_, ?_, ?_⟩
  · intro hlen hpol
    have hne : ids.isEmpty = false := by
      cases ids with
      | nil => simp at hlen
      | cons a as => rfl
    simp [resolve_and_prepare_filters_with, hmap, resolve_go, hrule, hcoll, hne, hlen, hpol]
  · intro hne hpol
    have hne2 : ids.isEmpty = false := by
      cases ids with
      | nil => exact absurd rfl hne
      | cons a as => rfl
    have hcond : ¬(1 < ids.length ∧ rule.on_multiple_results = "error") := by
      rintro ⟨-, hpe⟩
      rw [hpol] at hpe
      exact absurd hpe (by decide)
    simp [resolve_and_prepare_filters_with, hmap, resolve_go, hrule, hcoll, hne2, hcond,
      hpol, dictSet]
  · intro hne hcomb hpol
    have hne2 : ids.isEmpty = false := by
      cases ids with
      | nil => exact absurd rfl hne
      | cons a as => rfl
    have hcond : ¬(1 < ids.length ∧ rule.on_multiple_results = "error") := by
      rintro ⟨hgt, hpe⟩
      rcases hcomb with hle | hpe2
      · omega
      · exact hpe2 hpe
    simp [resolve_and_prepare_filters_with, hmap, resolve_go, hrule, hcoll, hne2, hcond,
      hpol, dictSet]

/-- Witness for C5: the name lookup finds ids {1,2} and the slug lookup
{2,1}; the union collapses to the 2-element set {1,2}; `error` policy fails
naming the count 2; `use_all` policy produces the full 2-element id list. -/
theorem c5_multiple_id_policies_witness :
    (collect_lookup_ids demoMultiEnv "sites" (.str "HQ") ["name", "slug"]).1 =
      .ok [1, 2] ∧
    (resolve_and_prepare_filters demoMultiEnv "devices" [("site_ref", .str "HQ")]).1 =
      .error (.valueError (multipleMsg 2 "sites" "site_ref" (.str "HQ"))) ∧
    (resolve_and_prepare_filters_with demoFieldMap demoMultiEnv "devices"
        [("site_ref", .str "HQ")]).1 =
      .ok ([("site_id", .arr [.num 1, .num 2])], [("site_ref", .str "HQ")]) := by
  refine ⟨?_, ?_, ?_⟩
  · exact (c5_multiple_id_policies RESOLVABLE_FIELD_MAP demoMultiEnv "devices" "site_ref"
      "name" "slug" (.str "HQ") ⟨"sites", ["name", "slug"], "site_id", "error", "error"⟩ _
      [1, 2] [2, 1] [1, 2] rfl rfl rfl rfl rfl rfl).1
  · exact (c5_multiple_id_policies RESOLVABLE_FIELD_MAP demoMultiEnv "devices" "site_ref"
      "name" "slug" (.str "HQ") ⟨"sites", ["name", "slug"], "site_id", "error", "error"⟩ _
      [1, 2] [2, 1] [1, 2] rfl rfl rfl rfl rfl rfl).2.2.1 (by decide) rfl
  · exact (c5_multiple_id_policies demoFieldMap demoMultiEnv "devices" "site_ref"
      "name" "slug" (.str "HQ") ⟨"sites", ["name", "slug"], "site_id", "error", "use_all"⟩ _
      [1, 2] [2, 1] [1, 2] rfl rfl rfl rfl rfl rfl).2.2.2.1 (by decide) rfl

/-- Helper: a dict assignment makes the key map to the assigned value. -/
theorem jget_dictSet_self (d : List (String × JVal)) (k : String) (v : JVal) :
    jget (dictSet d k v) k = some v := by
  induction d with
  | nil => simp [dictSet, jget, slookup]
  | cons p rest ih =>
      obtain ⟨k1, v1⟩ := p
      by_cases h : k1 = k
      · subst h; simp [dictSet, jget, slookup]
      · simp only [dictSet, jget, slookup, h, if_false, if_neg h]
        exact ih

/-- Helper: a dict assignment leaves other keys unchanged. -/
theorem jget_dictSet_ne (d : List (String × JVal)) (k1 k : String) (v : JVal)
    (h : k1 ≠ k) : jget (dictSet d k1 v) k = jget d k := by
  induction d with
  | nil => simp [dictSet, jget, slookup, h]
  | cons p rest ih =>
      obtain ⟨k0, v0⟩ := p
      by_cases h0 : k0 = k1
      · subst h0; simp [dictSet, jget, slookup, h]
      · by_cases hk : k0 = k
        · subst hk; simp [dictSet, jget, slookup, h0]
        · simp only [dictSet, jget, slookup, h0, hk, if_false, if_neg h0, if_neg hk]
          exact ih

/-- Helper: the context-filter loop does not touch keys outside the context
dict. -/
theorem jget_ctx_foldl_not_mem (ot : String) (item : List (String × JVal)) :
    ∀ (ctx b : List (String × JVal)) (k : String),
      k ∉ ctx.map Prod.fst →
      jget (ctx.foldl (ctxStep ot item) b) k = jget b k := by
  intro ctx
  induction ctx with
  | nil => intro b k _; rfl
  | cons p rest ih =>
      intro b k hk
      simp only [List.map_cons, List.mem_cons, not_or] at hk
      simp only [List.foldl_cons]
      rw [ih _ k hk.2]
      exact jget_dictSet_ne b p.1 k _ (Ne.symm hk.1)

/-- Helper: the context-filter loop assigns every context entry its echoed
value (the write is last in the pipeline, so it wins). -/
theorem jget_ctx_foldl_mem (ot : String) (item : List (String × JVal)) :
    ∀ (ctx b : List (String × JVal)) (k : String) (v : JVal),
      (ctx.map Prod.fst).Nodup → (k, v) ∈ ctx →
      jget (ctx.foldl (ctxStep ot item) b) k = some (ctxEchoValue ot item k v) := by
  intro ctx
  induction ctx with
  | nil => intro b k v _ hmem; simp at hmem
  | cons p rest ih =>
      intro b k v hnd hmem
      simp only [List.map_cons, List.nodup_cons] at hnd
      rcases List.mem_cons.mp hmem with heq | hmem2
      · subst heq
        simp only [List.foldl_cons]
        rw [jget_ctx_foldl_not_mem ot item rest _ k hnd.1]
        exact jget_dictSet_self b k _
      · simp only [List.foldl_cons]
        exact ih _ k v hnd.2 hmem2

/-- Helper: `devManufacturer` only writes `manufacturer_name`. -/
theorem jget_devManufacturer_ne (dt b : List (String × JVal)) (k : String)
    (h : k ≠ "manufacturer_name") : jget (devManufacturer dt b) k = jget b k := by
  unfold devManufacturer
  repeat' split
  all_goals simp [jget_dictSet_ne, Ne.symm h]

/-- Helper: `devModel` only writes `model_name` and `os_type`. -/
theorem jget_devModel_ne (dt b : List (String × JVal)) (k : String)
    (h2 : k ≠ "model_name") (h3 : k ≠ "os_type") :
    jget (devModel dt b) k = jget b k := by
  unfold devModel
  repeat' split
  all_goals simp [jget_dictSet_ne, Ne.symm h2, Ne.symm h3]

/-- Helper: `devSerial` only writes `serial_number`. -/
theorem jget_devSerial_ne (item b : List (String × JVal)) (k : String)
    (h : k ≠ "serial_number") : jget (devSerial item b) k = jget b k := by
  unfold devSerial
  repeat' split
  all_goals simp [jget_dictSet_ne, Ne.symm h]

/-- Helper: `devSite` only writes `site_name`. -/
theorem jget_devSite_ne (item b : List (String × JVal)) (k : String)
    (h : k ≠ "site_name") : jget (devSite item b) k = jget b k := by
  unfold devSite
  repeat' split
  all_goals simp [jget_dictSet_ne, Ne.symm h]

/-- Helper: the devices-only brief fields never touch keys other than the
five they synthesize. -/
theorem jget_deviceExtras_ne (item b : List (String × JVal)) (k : String)
    (h1 : k ≠ "manufacturer_name") (h2 : k ≠ "model_name") (h3 : k ≠ "os_type")
    (h4 : k ≠ "serial_number") (h5 : k ≠ "site_name") :
    jget (deviceExtras item b) k = jget b k := by
  unfold deviceExtras
  rw [jget_devSite_ne _ _ _ h5, jget_devSerial_ne _ _ _ h4]
  repeat' split
  all_goals simp [jget_devModel_ne _ _ _ h2 h3, jget_devManufacturer_ne _ _ _ h1]

/-- Helper: the base brief item maps `id` to the item's id. -/
theorem jget_briefBase_id (item : List (String × JVal)) :
    jget (briefBase item) "id" = some ((jget item "id").getD .null) := by
  unfold briefBase
  split
  · rw [jget_dictSet_ne _ _ _ _ (by decide)]
    rfl
  · rfl

/-- Helper: the base brief item maps `display` to the item's display. -/
theorem jget_briefBase_display (item : List (String × JVal)) :
    jget (briefBase item) "display" = some ((jget item "display").getD .null) := by
  unfold briefBase
  split
  · rw [jget_dictSet_ne _ _ _ _ (by decide)]
    rfl
  · rfl

/-- Helper: when the item has a `name`, the base brief item keeps it. -/
theorem jget_briefBase_name (item : List (String × JVal)) (w : JVal)
    (h : jget item "name" = some w) :
    jget (briefBase item) "name" = some w := by
  unfold briefBase
  rw [h]
  exact jget_dictSet_self _ _ _

/-- Helper: a truthy `device_type` dict whose non-empty model string the
keyword table classifies gives the device its synthesized `os_type`. -/
theorem jget_deviceExtras_os (item b : List (String × JVal))
    (dt : List (String × JVal)) (s : String) (os : String)
    (hdt : jget item "device_type" = some (.obj dt)) (hne : dt ≠ [])
    (hm : jget dt "model" = some (.str s)) (hs : s ≠ "")
    (hos : osClassify s = some os) :
    jget (deviceExtras item b) "os_type" = some (.str os) := by
  have htr : jTruthy (.obj dt) = true := by
    cases dt with
    | nil => exact absurd rfl hne
    | cons p rest => rfl
  unfold deviceExtras
  rw [jget_devSite_ne _ _ _ (by decide), jget_devSerial_ne _ _ _ (by decide), hdt]
  simp only [htr, if_true]
  unfold devModel
  rw [hm]
  simp [hs, hos, jget_dictSet_self]

/-- C9: the brief projection retains `id`, `display` and (when the item has
one) `name`; every context-filter entry is echoed, with the assigned value
preferring the item's own field value — or its `label` for choice-type
fields — exactly when the key is not a resolved reference and the item
carries a non-null value for it; for devices a non-empty model string
matched by the fixed keyword table synthesizes `os_type`; and the
projection is pure: the requests issued by `netbox_get_objects` are
identical with `brief=True` and `brief=False`. -/
theorem c9_brief_projection :
    (∀ (ot : String) (ctx item : List (String × JVal)),
      "id" ∉ ctx.map Prod.fst →
      jget (brief_item_of ot ctx item) "id" = some ((jget item "id").getD .null))
    ∧ (∀ (ot : String) (ctx item : List (String × JVal)),
      "display" ∉ ctx.map Prod.fst →
      jget (brief_item_of ot ctx item) "display" = some ((jget item "display").getD .null))
    ∧ (∀ (ot : String) (ctx item : List (String × JVal)) (w : JVal),
      "name" ∉ ctx.map Prod.fst → jget item "name" = some w →
      jget (brief_item_of ot ctx item) "name" = some w)
    ∧ (∀ (ot : String) (ctx item : List (String × JVal)) (k : String) (v : JVal),
      (ctx.map Prod.fst).Nodup → (k, v) ∈ ctx →
      jget (brief_item_of ot ctx item) k = some (ctxEchoValue ot item k v))
    ∧ (∀ (ot k : String) (item : List (String × JVal)) (v : JVal),
      isResolvableKey ot k = true → ctxEchoValue ot item k v = v)
    ∧ (∀ (ot k : String) (item : List (String × JVal)) (v : JVal),
      isResolvableKey ot k = false → jget item k = none → ctxEchoValue ot item k v = v)
    ∧ (∀ (ot k : String) (item o : List (String × JVal)) (v l : JVal),
      isResolvableKey ot k = false → jget item k = some (.obj o) →
      jget o "label" = some l → ctxEchoValue ot item k v = l)
    ∧ (∀ (ot k : String) (item : List (String × JVal)) (v : JVal) (w : String),
      isResolvableKey ot k = false → jget item k = some (.str w) →
      ctxEchoValue ot item k v = .str w)
    ∧ (∀ (ctx item dt : List (String × JVal)) (s os : String),
      "os_type" ∉ ctx.map Prod.fst →
      jget item "device_type" = some (.obj dt) → dt ≠ [] →
      jget dt "model" = some (.str s) → s ≠ "" →
      osClassify s = some os →
      jget (brief_item_of "devices" ctx item) "os_type" = some (.str os))
    ∧ (∀ (env : OldEnv) (ot : String) (filters : List (String × JVal)),
      (netbox_get_objects_old env ot filters true).2 =
        (netbox_get_objects_old env ot filters false).2) := by
  refine ⟨?_, ?_, ?_, ?_, ?_, ?_, ?_, ?_, ?_, ?_⟩
  · intro ot ctx item hid
    unfold brief_item_of
    rw [jget_ctx_foldl_not_mem ot item ctx _ _ hid]
    by_cases hdev : ot = "devices"
    · simp only [hdev, if_true]
      rw [jget_deviceExtras_ne _ _ _ (by decide) (by decide) (by decide) (by decide) (by decide)]
      exact jget_briefBase_id item
    · simp only [hdev, if_false]
      exact jget_briefBase_id item
  · intro ot ctx item hid
    unfold brief_item_of
    rw [jget_ctx_foldl_not_mem ot item ctx _ _ hid]
    by_cases hdev : ot = "devices"
    · simp only [hdev, if_true]
      rw [jget_deviceExtras_ne _ _ _ (by decide) (by decide) (by decide) (by decide) (by decide)]
      exact jget_briefBase_display item
    · simp only [hdev, if_false]
      exact jget_briefBase_display item
  · intro ot ctx item w hid hw
    unfold brief_item_of
    rw [jget_ctx_foldl_not_mem ot item ctx _ _ hid]
    by_cases hdev : ot = "devices"
    · simp only [hdev, if_true]
      rw [jget_deviceExtras_ne _ _ _ (by decide) (by decide) (by decide) (by decide) (by decide)]
      exact jget_briefBase_name item w hw
    · simp only [hdev, if_false]
      exact jget_briefBase_name item w hw
  · intro ot ctx item k v hnd hmem
    unfold brief_item_of
    exact jget_ctx_foldl_mem ot item ctx _ k v hnd hmem
  · intro ot k item v hres
    simp [ctxEchoValue, hres]
  · intro ot k item v hres hnone
    simp [ctxEchoValue, hres, hnone]
  · intro ot k item o v l hres hobj hlab
    simp [ctxEchoValue, hres, hobj, hlab]
  · intro ot k item v w hres hstr
    simp [ctxEchoValue, hres, hstr]
  · intro ctx item dt s os hos hdt hne hm hs hcls
    unfold brief_item_of
    rw [jget_ctx_foldl_not_mem _ item ctx _ _ hos]
    simp only [if_pos rfl]
    exact jget_deviceExtras_os item _ dt s os hdt hne hm hs hcls
  · intro env ot filters
    unfold netbox_get_objects_old
    cases hl : slookup NETBOX_OBJECT_TYPES_OLD ot with
    | none => rfl
    | some endpoint =>
        cases hres : resolve_and_prepare_filters env ot filters with
        | mk r tr =>
            cases r with
            | error e => simp [hres]
            | ok pc =>
                obtain ⟨api, ctx⟩ := pc
                cases hget : old_client_get env endpoint api with
                | mk g tr2 =>
                    cases g with
                    | error e => simp [hres, hget]
                    | ok full => simp [hres, hget]

/-- Witness for C9 on a concrete device item: the brief projection keeps
id/display/name, classifies a Nexus model as NX-OS, and echoes a
passthrough `status` filter with the item's choice-field label. -/
theorem c9_brief_projection_witness :
    jget (brief_item_of "devices" [("status", .str "active")]
      [("id", .num 7), ("display", .str "sw1"), ("name", .str "sw1"),
       ("status", .obj [("value", .str "active"), ("label", .str "Active")]),
       ("device_type", .obj [("model", .str "Nexus 9300")])]) "id" = some (.num 7) ∧
    jget (brief_item_of "devices" [("status", .str "active")]
      [("id", .num 7), ("display", .str "sw1"), ("name", .str "sw1"),
       ("status", .obj [("value", .str "active"), ("label", .str "Active")]),
       ("device_type", .obj [("model", .str "Nexus 9300")])]) "os_type" =
      some (.str "NX-OS") ∧
    jget (brief_item_of "devices" [("status", .str "active")]
      [("id", .num 7), ("display", .str "sw1"), ("name", .str "sw1"),
       ("status", .obj [("value", .str "active"), ("label", .str "Active")]),
       ("device_type", .obj [("model", .str "Nexus 9300")])]) "status" =
      some (.str "Active") := by
  refine ⟨?_, ?_, ?_⟩
  · exact (c9_brief_projection.1 "devices" [("status", .str "active")] _ (by decide)).trans
      (by rfl)
  · exact c9_brief_projection.2.2.2.2.2.2.2.2.1 [("status", .str "active")] _
      [("model", .str "Nexus 9300")] "Nexus 9300" "NX-OS" (by decide) rfl
      (List.cons_ne_nil _ _) rfl (by decide) rfl
  · exact (c9_brief_projection.2.2.2.1 "devices" [("status", .str "active")] _ "status"
      (.str "active") (by decide) (List.mem_singleton.mpr rfl)).trans (by rfl)

/-- Helper: the search loop produces one `(type, value)` pair per requested
type, in request order. -/
theorem search_fold_fst (registry : List (String × TypeInfo)) (env : NetEnv)
    (cfg : ClientCfg) (query : String) (limit : Int) (fields_list : List String)
    (fuel : Nat) :
    ∀ (ts : List String) (acc : List (String × JVal)) (tr : List ClientReq),
      (ts.foldl (searchStep registry env cfg query limit fields_list fuel) (acc, tr)).1 =
        acc ++ ts.map
          (fun t => (t, (search_one registry env cfg query limit fields_list fuel t).1)) := by
  intro ts
  induction ts with
  | nil => intro acc tr; simp
  | cons t rest ih =>
      intro acc tr
      simp only [List.foldl_cons, List.map_cons, searchStep]
      cases h : search_one registry env cfg query limit fields_list fuel t with
      | mk v tr2 =>
          simp only [h]
          rw [ih]
          simp

/-- C7: when every requested type is known, the search returns a structure
with exactly one key per requested type, in order; a sub-lookup whose client
`get` raises yields the empty list for that type only (not an exception),
and a sub-lookup answered with a page yields that page's `results`. -/
theorem c7_search_resilience (registry : List (String × TypeInfo)) (env : NetEnv)
    (cfg : ClientCfg) (query : String) (search_types : List String)
    (fields_list : List String) (limit : Int) (fuel : Nat)
    (hvalid : ∀ t ∈ search_types, (slookup registry t).isSome)
    (hne : search_types ≠ []) :
    ((netbox_search_objects_v2 registry env cfg query search_types fields_list limit fuel).1 =
      .ok (search_types.map
        (fun t => (t, (search_one registry env cfg query limit fields_list fuel t).1))))
    ∧ ((search_types.map
        (fun t => (t, (search_one registry env cfg query limit fields_list fuel t).1))).map
          Prod.fst = search_types)
    ∧ (∀ (t : String) (info : TypeInfo) (e : ClientErr) (tr : List ClientReq),
      slookup registry t = some info →
      clientGet env cfg info.endpoint none (search_params query limit fields_list)
          info.fallback fuel = (.error e, tr) →
      (search_one registry env cfg query limit fields_list fuel t).1 = .arr [])
    ∧ (∀ (t : String) (info : TypeInfo) (page : List (String × JVal)) (tr : List ClientReq),
      slookup registry t = some info →
      clientGet env cfg info.endpoint none (search_params query limit fields_list)
          info.fallback fuel = (.ok (.obj page), tr) →
      (search_one registry env cfg query limit fields_list fuel t).1 =
        (jget page "results").getD (.arr [])) := by
  refine ⟨?_, ?_, ?_, ?_⟩
  · have hempty : search_types.isEmpty = false := by
      cases search_types with
      | nil => exact absurd rfl hne
      | cons a as => rfl
    have hfind : search_types.find? (fun t => (slookup registry t).isNone) = none := by
      rw [List.find?_eq_none]
      intro t ht
      have h1 := hvalid t ht
      cases hslk : slookup registry t with
      | none => rw [hslk] at h1; simp at h1
      | some info => simp [hslk]
    simp only [netbox_search_objects_v2, hempty, Bool.false_eq_true, if_false, hfind]
    rw [search_fold_fst]
    simp
  · rw [List.map_map]
    exact List.map_id search_types
  · intro t info e tr hslk hget
    simp [search_one, hslk, hget]
  · intro t info page tr hslk hget
    simp [search_one, hslk, hget]

/-- Witness for C7: three requested types where the sites sub-lookup answers
500 — the result has the 3 keys in order, the failing key maps to the empty
list, and the other two carry their actual results. -/
theorem c7_search_resilience_witness :
    (netbox_search_objects_v2 demoRegistry demoSearchEnv demoCfg "sw"
        ["dcim.device", "dcim.site", "core.objecttype"] [] 5 0).1 =
      .ok [("dcim.device", .arr [.obj [("id", .num 1), ("name", .str "sw1")]]),
           ("dcim.site", .arr []),
           ("core.objecttype", .arr [])] := by
  have h := (c7_search_resilience demoRegistry demoSearchEnv demoCfg "sw"
    ["dcim.device", "dcim.site", "core.objecttype"] [] 5 0
    (by intro t ht; fin_cases ht <;> rfl) (by decide)).1
  exact h.trans (by rfl)

/-- C8: for an object type absent from the registry, every operation taking
an object type — both historical tools and all three current tools — raises
the `ValueError` that enumerates all valid logical names sorted
lexicographically, before any network request is issued (the request trace
is empty); the enumerated list is sorted and is a permutation of the
registry's names. -/
theorem c8_unknown_object_type :
    (∀ (env : OldEnv) (ot : String) (filters : List (String × JVal)) (brief : Bool),
      slookup NETBOX_OBJECT_TYPES_OLD ot = none →
      netbox_get_objects_old env ot filters brief =
        (.error (.valueError (invalidTypeMsg sortedOldTypeNames)), []))
    ∧ (∀ (env : OldEnv) (ot : String) (oid : Int),
      slookup NETBOX_OBJECT_TYPES_OLD ot = none →
      netbox_get_object_by_id_old env ot oid =
        (.error (.valueError (invalidTypeMsg sortedOldTypeNames)), []))
    ∧ (∀ (registry : List (String × TypeInfo)) (env : NetEnv) (cfg : ClientCfg)
        (ot : String) (filters : List (String × JVal)) (fields : List String)
        (brief : Bool) (limit offset : Int) (ordering : String) (fuel : Nat),
      slookup registry ot = none →
      netbox_get_objects_v2 registry env cfg ot filters fields brief limit offset
          ordering fuel =
        (.error (.valueError (invalidTypeMsg (sortAsc (registry.map Prod.fst)))), []))
    ∧ (∀ (registry : List (String × TypeInfo)) (env : NetEnv) (cfg : ClientCfg)
        (ot : String) (oid : Int) (fields : List String) (brief : Bool) (fuel : Nat),
      slookup registry ot = none →
      netbox_get_object_by_id_v2 registry env cfg ot oid fields brief fuel =
        (.error (.valueError (invalidTypeMsg (sortAsc (registry.map Prod.fst)))), []))
    ∧ (∀ (registry : List (String × TypeInfo)) (env : NetEnv) (cfg : ClientCfg)
        (query : String) (ts fields : List String) (limit : Int) (fuel : Nat)
        (bad : String),
      (if ts.isEmpty then DEFAULT_SEARCH_TYPES else ts).find?
          (fun t => (slookup registry t).isNone) = some bad →
      netbox_search_objects_v2 registry env cfg query ts fields limit fuel =
        (.error (.valueError (invalidTypeMsgQ bad (sortAsc (registry.map Prod.fst)))), []))
    ∧ (∀ names : List String,
      (sortAsc names).Sorted (· ≤ ·) ∧ List.Perm (sortAsc names) names)
    ∧ (sortedOldTypeNames.Sorted (· ≤ ·) ∧
       List.Perm sortedOldTypeNames (NETBOX_OBJECT_TYPES_OLD.map Prod.fst)) := by
  refine ⟨?_, ?_, ?_, ?_, ?_, ?_, ?_⟩
  · intro env ot filters brief h
    simp [netbox_get_objects_old, h]
  · intro env ot oid h
    simp [netbox_get_object_by_id_old, h]
  · intro registry env cfg ot filters fields brief limit offset ordering fuel h
    simp [netbox_get_objects_v2, h]
  · intro registry env cfg ot oid fields brief fuel h
    simp [netbox_get_object_by_id_v2, h]
  · intro registry env cfg query ts fields limit fuel bad h
    simp only [netbox_search_objects_v2]
    rw [h]
  · intro names
    exact ⟨List.sorted_insertionSort _ names, List.perm_insertionSort _ names⟩
  · exact ⟨List.sorted_insertionSort _ _, List.perm_insertionSort _ _⟩

/-- Witness for C8: the unknown type `invalid_type_xyz` makes all five
operations fail with the sorted enumeration and an empty request trace. -/
theorem c8_unknown_object_type_witness :
    netbox_get_objects_old demoEmptyEnv "invalid_type_xyz" [] true =
      (.error (.valueError (invalidTypeMsg sortedOldTypeNames)), []) ∧
    netbox_get_object_by_id_old demoEmptyEnv "invalid_type_xyz" 1 =
      (.error (.valueError (invalidTypeMsg sortedOldTypeNames)), []) ∧
    netbox_get_objects_v2 demoRegistry demoSearchEnv demoCfg "invalid_type_xyz" [] []
        false 5 0 "" 0 =
      (.error (.valueError (invalidTypeMsg (sortAsc (demoRegistry.map Prod.fst)))), []) ∧
    netbox_search_objects_v2 demoRegistry demoSearchEnv demoCfg "q"
        ["dcim.device", "invalid_type_xyz"] [] 5 0 =
      (.error (.valueError
        (invalidTypeMsgQ "invalid_type_xyz" (sortAsc (demoRegistry.map Prod.fst)))), []) := by
  refine ⟨?_, ?_, ?_, ?_⟩
  · exact c8_unknown_object_type.1 demoEmptyEnv "invalid_type_xyz" [] true rfl
  · exact c8_unknown_object_type.2.1 demoEmptyEnv "invalid_type_xyz" 1 rfl
  · exact c8_unknown_object_type.2.2.1 demoRegistry demoSearchEnv demoCfg
      "invalid_type_xyz" [] [] false 5 0 "" 0 rfl
  · exact c8_unknown_object_type.2.2.2.2.1 demoRegistry demoSearchEnv demoCfg "q"
      ["dcim.device", "invalid_type_xyz"] [] 5 0 "invalid_type_xyz" rfl

/-- C10: the query parameters the current `netbox_get_objects` sends always
contain the integer `limit` (tool argument, default 5, schema-validated to
1..100) and the integer `offset` (default 0, non-negative), overriding any
`limit`/`offset` inside the caller's filters dict; consequently, with these
params the client returns the first page verbatim after exactly one
request — every list request is an explicitly paginated single-page
request. -/
theorem c10_explicit_pagination (registry : List (String × TypeInfo)) (env : NetEnv)
    (cfg : ClientCfg) (ot : String) (info : TypeInfo) (filters : List (String × JVal))
    (fields : List String) (brief : Bool) (limit offset : Int) (ordering : String)
    (fuel : Nat)
    (hreg : slookup registry ot = some info)
    (_hlim : 1 ≤ limit ∧ limit ≤ 100) (_hoff : 0 ≤ offset) :
    (jget (get_objects_params filters fields brief limit offset ordering) "limit" =
      some (.num limit))
    ∧ (jget (get_objects_params filters fields brief limit offset ordering) "offset" =
      some (.num offset))
    ∧ (∀ (page : List (String × JVal)) (rs : List JVal),
      validate_filters filters = .ok () →
      env (buildUrl cfg.apiUrl info.endpoint none)
          (get_objects_params filters fields brief limit offset ordering) =
        .ok (.obj page) →
      jget page "results" = some (.arr rs) →
      netbox_get_objects_v2 registry env cfg ot filters fields brief limit offset
          ordering fuel =
        (.ok (.obj page),
         [⟨buildUrl cfg.apiUrl info.endpoint none,
           get_objects_params filters fields brief limit offset ordering,
           cfg.verifySsl⟩])) := by
  have hl : jget (get_objects_params filters fields brief limit offset ordering) "limit" =
      some (.num limit) := by
    unfold get_objects_params
    repeat' split
    all_goals
      simp [jget_dictSet_ne, jget_dictSet_self]
  have ho : jget (get_objects_params filters fields brief limit offset ordering) "offset" =
      some (.num offset) := by
    unfold get_objects_params
    repeat' split
    all_goals
      simp [jget_dictSet_ne, jget_dictSet_self]
  refine ⟨hl, ho, ?_⟩
  intro page rs hval henv hres
  have hkey : paramsHasKey (get_objects_params filters fields brief limit offset ordering)
      "limit" = true := by
    unfold paramsHasKey
    rw [show slookup (get_objects_params filters fields brief limit offset ordering)
      "limit" = some (.num limit) from hl]
    rfl
  simp only [netbox_get_objects_v2, hreg, hval]
  simp only [clientGet, henv, Option.isSome_none, Bool.false_eq_true, if_false,
    handleListBody, hres, hkey, Bool.true_or, if_true]

/-- Witness for C10: filters carrying `limit=50, offset=9` are overridden by
the tool arguments (default 5 and 0), and the call is answered by the first
page verbatim with a single request even though the page has a next link. -/
theorem c10_explicit_pagination_witness :
    jget (get_objects_params [("limit", .num 50), ("offset", .num 9), ("name", .str "x")]
      [] false 5 0 "") "limit" = some (.num 5) ∧
    jget (get_objects_params [("limit", .num 50), ("offset", .num 9), ("name", .str "x")]
      [] false 5 0 "") "offset" = some (.num 0) ∧
    netbox_get_objects_v2 demoRegistry demoPagedEnv demoCfg "dcim.device"
        [("limit", .num 50), ("offset", .num 9), ("name", .str "x")] [] false 5 0 "" 0 =
      (.ok (.obj [("count", .num 5), ("next", .str "P2"), ("previous", .null),
                  ("results", .arr [.num 1, .num 2])]),
       [⟨"https://nb/api/dcim/devices/",
         get_objects_params [("limit", .num 50), ("offset", .num 9), ("name", .str "x")]
           [] false 5 0 "", true⟩]) := by
  have h := c10_explicit_pagination demoRegistry demoPagedEnv demoCfg "dcim.device"
    ⟨"dcim/devices", none⟩ [("limit", .num 50), ("offset", .num 9), ("name", .str "x")]
    [] false 5 0 "" 0 rfl (by constructor <;> decide) (by decide)
  refine ⟨h.1, h.2.1, ?_⟩
  exact (h.2.2 [("count", .num 5), ("next", .str "P2"), ("previous", .null),
    ("results", .arr [.num 1, .num 2])] [.num 1, .num 2] rfl rfl rfl).trans (by rfl)
